import Mathlib

/-!
# Solar system simulation: a shallow embedding of `sim.cpp`

The program integrates the mutual gravity of a list of point masses with a
fixed time step.  The definitions are written once, over a number type `K` that
has the arithmetic operations and literals the source uses, and are read in two
ways:

* with `K` the real numbers and `std::sqrt` read as `Real.sqrt`: the "exact real
  arithmetic" reading.  Division is then the total division of the field
  (`x / 0 = 0`); statements that depend on a divisor being non-zero carry that
  as a hypothesis;
* with `K` the type `Double` below, IEEE 754 binary64 with round to nearest,
  ties to even: the arithmetic the compiled program runs on.

The rendering calls (`window.clear`, `window.draw`, `window.display`) and the
event polling do not write to the body list and are not part of the model; the
only rendering state kept is the screen position stored in each body's shape.
-/

namespace SolarSim

/-! ## Constants (`sim.cpp`, lines 6-10) -/

section Constants

variable (K : Type) [NatCast K] [OfScientific K]

/-- Gravitational constant, `const double G = 6.67430e-11`. -/
def G : K := 6.67430e-11

/-- Time step in seconds, `const double TIME_STEP = 10000`. -/
def TIME_STEP : K := 10000

/-- Scale factor of the display mapping, `const double SCALE = 1e-9`. -/
def SCALE : K := 1e-9

end Constants

/-- Window width in pixels, `const int WINDOW_WIDTH = 800`. -/
def WINDOW_WIDTH : Int := 800

/-- Window height in pixels, `const int WINDOW_HEIGHT = 800`. -/
def WINDOW_HEIGHT : Int := 800

/-! ## Data model (`sim.cpp`, lines 12-38) -/

/-- The `struct Vector3` of the source: three components. -/
@[ext]
structure Vector3 (K : Type) where
  x : K
  y : K
  z : K
deriving DecidableEq, Repr

namespace Vector3

variable {K : Type} [Add K] [Sub K] [Mul K] [Div K] [Zero K]

/-- Componentwise sum, `Vector3::operator+`. -/
def add (u v : Vector3 K) : Vector3 K :=
  ⟨u.x + v.x, u.y + v.y, u.z + v.z⟩

/-- Componentwise difference, `Vector3::operator-`. -/
def sub (u v : Vector3 K) : Vector3 K :=
  ⟨u.x - v.x, u.y - v.y, u.z - v.z⟩

/-- Every component times the scalar, `Vector3::operator*(double)`. -/
def mul (u : Vector3 K) (scalar : K) : Vector3 K :=
  ⟨u.x * scalar, u.y * scalar, u.z * scalar⟩

/-- Every component divided by the scalar, `Vector3::operator/(double)`.  Over the
reals a zero scalar gives `(0,0,0)` (total division); over `Double` it gives
infinities and NaN, as in the compiled program. -/
def div (u : Vector3 K) (scalar : K) : Vector3 K :=
  ⟨u.x / scalar, u.y / scalar, u.z / scalar⟩

instance : Add (Vector3 K) := ⟨add⟩
instance : Sub (Vector3 K) := ⟨sub⟩
instance : HMul (Vector3 K) K (Vector3 K) := ⟨mul⟩
instance : HDiv (Vector3 K) K (Vector3 K) := ⟨div⟩

/-- The vector `{0, 0, 0}` with which the force array is initialised. -/
def zero : Vector3 K := ⟨0, 0, 0⟩

/-- Euclidean length of a vector, written with the same expression the source
uses for `distance` (line 42); `sqrt` stands for `std::sqrt`. -/
def norm (sqrt : K → K) (u : Vector3 K) : K :=
  sqrt (u.x * u.x + u.y * u.y + u.z * u.z)

/-- Left-to-right sum of a list of vectors on top of an initial vector. -/
def sumFrom (init : Vector3 K) (l : List (Vector3 K)) : Vector3 K :=
  l.foldl (fun acc v => acc + v) init

end Vector3

/-- Fill colours used by the program (`sf::Color`); `white` is the default of a
fresh shape. -/
inductive Color where
  | white
  | yellow
  | blue
deriving DecidableEq, Repr

/-- Modelled from the spec: `sf::CircleShape` belongs to the SFML library and is
not declared in the repository.  Only the attributes the program sets are kept:
radius, fill colour, origin and the screen position written by `setPosition`. -/
structure CircleShape (K : Type) where
  radius : K
  fillColor : Color
  originX : K
  originY : K
  screenX : K
  screenY : K
deriving DecidableEq, Repr

namespace CircleShape

variable {K : Type} [Zero K]

/-- A fresh shape `sf::CircleShape(radius)`: white, origin and position at `(0, 0)`. -/
def ofRadius (r : K) : CircleShape K :=
  ⟨r, Color.white, 0, 0, 0, 0⟩

/-- The call `shape.setPosition(x, y)`. -/
def setPosition (s : CircleShape K) (px py : K) : CircleShape K :=
  { s with screenX := px, screenY := py }

/-- The call `shape.setOrigin(x, y)`. -/
def setOrigin (s : CircleShape K) (ox oy : K) : CircleShape K :=
  { s with originX := ox, originY := oy }

/-- The call `shape.setFillColor(c)`. -/
def setFillColor (s : CircleShape K) (c : Color) : CircleShape K :=
  { s with fillColor := c }

end CircleShape

/-- The `struct CelestialBody` of the source. -/
structure CelestialBody (K : Type) where
  name : String
  mass : K
  position : Vector3 K
  velocity : Vector3 K
  shape : CircleShape K
deriving DecidableEq, Repr

section Program

variable {K : Type} [Add K] [Sub K] [Mul K] [Div K] [Zero K] [One K] [NatCast K] [IntCast K]
  [OfScientific K]

/-! ## Force between two bodies (`sim.cpp`, lines 40-46) -/

/-- The function `calculateGravitationalForce(a, b)`: the force on `a` exerted by `b`.
`sqrt` stands for `std::sqrt`.  The source has no guard for a zero distance: over
`Double` the result then holds NaN, over the reals the total division makes it
`(0,0,0)`, and `calculateGravitationalForceChecked` below fails. -/
def calculateGravitationalForce (sqrt : K → K) (a b : CelestialBody K) : Vector3 K :=
  let direction := b.position - a.position
  let distance := sqrt (direction.x * direction.x + direction.y * direction.y
    + direction.z * direction.z)
  let forceMagnitude := (G K * a.mass * b.mass) / (distance * distance)
  let unitDirection := direction / distance
  unitDirection * forceMagnitude

/-! ## One tick (`sim.cpp`, lines 73-96) -/

/-- Body of the inner loop (lines 77-79) for the index pair `(i, j)`:
`if (i != j) forces[i] = forces[i] + force(bodies[i], bodies[j])`.
The loops only produce indices below `bodies.size()`, so the lookups succeed;
`force` is the function called for a pair, `calculateGravitationalForce` in the
program. -/
def accumulateStep (force : CelestialBody K → CelestialBody K → Vector3 K)
    (bodies : List (CelestialBody K)) (i : Nat) (forces : List (Vector3 K)) (j : Nat) :
    List (Vector3 K) :=
  if i ≠ j then
    match forces[i]?, bodies[i]?, bodies[j]? with
    | some f, some bi, some bj => forces.set i (f + force bi bj)
    | _, _, _ => forces
  else forces

/-- Inner loop (lines 76-80): `j` runs over `0 .. bodies.size() - 1`. -/
def accumulateRow (force : CelestialBody K → CelestialBody K → Vector3 K)
    (bodies : List (CelestialBody K)) (forces : List (Vector3 K)) (i : Nat) :
    List (Vector3 K) :=
  (List.range bodies.length).foldl (accumulateStep force bodies i) forces

/-- Force accumulation (lines 73-81) with the pair function as a parameter: the
array starts as `bodies.size()` copies of `{0, 0, 0}` and `i` runs over
`0 .. bodies.size() - 1`. -/
def accumulateForcesWith (force : CelestialBody K → CelestialBody K → Vector3 K)
    (bodies : List (CelestialBody K)) : List (Vector3 K) :=
  (List.range bodies.length).foldl (accumulateRow force bodies)
    (List.replicate bodies.length Vector3.zero)

/-- Force accumulation of the program (lines 73-81). -/
def accumulateForces (sqrt : K → K) (bodies : List (CelestialBody K)) : List (Vector3 K) :=
  accumulateForcesWith (calculateGravitationalForce sqrt) bodies

/-- Body of the integration loop (lines 85-95) for one body and its force:
velocity first, then position from the new velocity, then the screen position
of every body not named "Sun". -/
def integrateBody (force : Vector3 K) (b : CelestialBody K) : CelestialBody K :=
  let acceleration := force / b.mass
  let velocity := b.velocity + acceleration * TIME_STEP K
  let position := b.position + velocity * TIME_STEP K
  let shape :=
    if b.name ≠ "Sun" then
      b.shape.setPosition (((WINDOW_WIDTH / 2 : Int) : K) + position.x * SCALE K)
        (((WINDOW_HEIGHT / 2 : Int) : K) + position.y * SCALE K)
    else b.shape
  { b with velocity := velocity, position := position, shape := shape }

/-- One iteration of the integration loop (lines 84-96) at index `i`. -/
def integrateStep (forces : List (Vector3 K)) (bodies : List (CelestialBody K)) (i : Nat) :
    List (CelestialBody K) :=
  match forces[i]?, bodies[i]? with
  | some f, some b => bodies.set i (integrateBody f b)
  | _, _ => bodies

/-- Integration loop (lines 84-96): `i` runs over `0 .. bodies.size() - 1`. -/
def integrate (forces : List (Vector3 K)) (bodies : List (CelestialBody K)) :
    List (CelestialBody K) :=
  (List.range bodies.length).foldl (integrateStep forces) bodies

/-- One pass of the simulation loop (lines 73-96): all forces are computed from
the bodies as they are at the start of the pass, then every body is advanced. -/
def tick (sqrt : K → K) (bodies : List (CelestialBody K)) : List (CelestialBody K) :=
  integrate (accumulateForces sqrt bodies) bodies

/-- The body list after `n` passes of the `while (window.isOpen())` loop. -/
def simulate (sqrt : K → K) : Nat → List (CelestialBody K) → List (CelestialBody K)
  | 0, bodies => bodies
  | n + 1, bodies => simulate sqrt n (tick sqrt bodies)

/-! ## Initial state (`sim.cpp`, lines 50-59) -/

/-- The body `sun` after lines 50-53. -/
def sun : CelestialBody K :=
  { name := "Sun", mass := 1.989e30, position := ⟨0, 0, 0⟩, velocity := ⟨0, 0, 0⟩,
    shape := (((CircleShape.ofRadius 20).setFillColor Color.yellow).setOrigin 20 20).setPosition
      ((WINDOW_WIDTH / 2 : Int) : K) ((WINDOW_HEIGHT / 2 : Int) : K) }

/-- The body `earth` after lines 55-57. -/
def earth : CelestialBody K :=
  { name := "Earth", mass := 5.972e24, position := ⟨1.496e11, 0, 0⟩,
    velocity := ⟨0, 29780, 0⟩,
    shape := ((CircleShape.ofRadius 5).setFillColor Color.blue).setOrigin 5 5 }

/-- The list `bodies = {sun, earth}` of line 59. -/
def initialBodies : List (CelestialBody K) := [sun, earth]

/-! ## Notions used to state the properties -/

/-- Net force on the body `bi` at index `i`: the forces exerted by all other
bodies of the list, summed in list order starting from `{0, 0, 0}`. -/
def netForceWith (force : CelestialBody K → CelestialBody K → Vector3 K)
    (bodies : List (CelestialBody K)) (i : Nat) (bi : CelestialBody K) : Vector3 K :=
  Vector3.sumFrom Vector3.zero ((bodies.eraseIdx i).map (force bi))

/-- Net gravitational force on the body `bi` at index `i`. -/
def netForce (sqrt : K → K) (bodies : List (CelestialBody K)) (i : Nat)
    (bi : CelestialBody K) : Vector3 K :=
  netForceWith (calculateGravitationalForce sqrt) bodies i bi

/-- Total momentum: the sum over the bodies of `velocity * mass`. -/
def totalMomentum (bodies : List (CelestialBody K)) : Vector3 K :=
  Vector3.sumFrom Vector3.zero (bodies.map (fun b => b.velocity * b.mass))

/-- The reversed update order that the integrator must not use: the position is
advanced with the velocity from before the tick, then the velocity is updated.
The display update is the same as in `integrateBody`. -/
def integrateBodyReversed (force : Vector3 K) (b : CelestialBody K) : CelestialBody K :=
  let acceleration := force / b.mass
  let position := b.position + b.velocity * TIME_STEP K
  let velocity := b.velocity + acceleration * TIME_STEP K
  let shape :=
    if b.name ≠ "Sun" then
      b.shape.setPosition (((WINDOW_WIDTH / 2 : Int) : K) + position.x * SCALE K)
        (((WINDOW_HEIGHT / 2 : Int) : K) + position.y * SCALE K)
    else b.shape
  { b with velocity := velocity, position := position, shape := shape }

/-- The body moved by the vector `t`: only its position changes. -/
def translate (t : Vector3 K) (b : CelestialBody K) : CelestialBody K :=
  { b with position := b.position + t }

/-- The tick with the reversed update order in place of the integrator's. -/
def tickReversed (sqrt : K → K) (bodies : List (CelestialBody K)) : List (CelestialBody K) :=
  List.zipWith integrateBodyReversed (accumulateForces sqrt bodies) bodies

/-! ## The tick with guarded division

The same program with every division by a computed value (lines 28, 43, 44 and
85) replaced by a division that fails on a zero divisor.  The two integer
divisions by the literal `2` in the display mapping have no computed divisor
and stay as they are. -/

section Checked

variable [DecidableEq K]

/-- Division that fails when the divisor is zero.  Over `Double` the test is for
`+0`, the only zero that a sum of squares, its square root and their product
can be. -/
def checkedDiv (x y : K) : Option K :=
  if y = 0 then none else some (x / y)

/-- Guarded `Vector3::operator/(double)`: its three divisions, component by
component. -/
def Vector3.divChecked (u : Vector3 K) (scalar : K) : Option (Vector3 K) := do
  let x ← checkedDiv u.x scalar
  let y ← checkedDiv u.y scalar
  let z ← checkedDiv u.z scalar
  pure ⟨x, y, z⟩

/-- Guarded `calculateGravitationalForce` (lines 40-46). -/
def calculateGravitationalForceChecked (sqrt : K → K) (a b : CelestialBody K) :
    Option (Vector3 K) := do
  let direction := b.position - a.position
  let distance := sqrt (direction.x * direction.x + direction.y * direction.y
    + direction.z * direction.z)
  let forceMagnitude ← checkedDiv (G K * a.mass * b.mass) (distance * distance)
  let unitDirection ← direction.divChecked distance
  pure (unitDirection * forceMagnitude)

/-- Guarded body of the inner loop (lines 77-79). -/
def accumulateStepChecked (sqrt : K → K) (bodies : List (CelestialBody K)) (i : Nat)
    (forces : List (Vector3 K)) (j : Nat) : Option (List (Vector3 K)) :=
  if i ≠ j then
    match forces[i]?, bodies[i]?, bodies[j]? with
    | some f, some bi, some bj => do
      let g ← calculateGravitationalForceChecked sqrt bi bj
      pure (forces.set i (f + g))
    | _, _, _ => pure forces
  else pure forces

/-- Guarded inner loop (lines 76-80). -/
def accumulateRowChecked (sqrt : K → K) (bodies : List (CelestialBody K))
    (forces : List (Vector3 K)) (i : Nat) : Option (List (Vector3 K)) :=
  (List.range bodies.length).foldlM (accumulateStepChecked sqrt bodies i) forces

/-- Guarded force accumulation (lines 73-81). -/
def accumulateForcesChecked (sqrt : K → K) (bodies : List (CelestialBody K)) :
    Option (List (Vector3 K)) :=
  (List.range bodies.length).foldlM (accumulateRowChecked sqrt bodies)
    (List.replicate bodies.length Vector3.zero)

/-- Guarded body of the integration loop (lines 85-95). -/
def integrateBodyChecked (force : Vector3 K) (b : CelestialBody K) :
    Option (CelestialBody K) := do
  let acceleration ← force.divChecked b.mass
  let velocity := b.velocity + acceleration * TIME_STEP K
  let position := b.position + velocity * TIME_STEP K
  let shape :=
    if b.name ≠ "Sun" then
      b.shape.setPosition (((WINDOW_WIDTH / 2 : Int) : K) + position.x * SCALE K)
        (((WINDOW_HEIGHT / 2 : Int) : K) + position.y * SCALE K)
    else b.shape
  pure { b with velocity := velocity, position := position, shape := shape }

/-- Guarded iteration of the integration loop at index `i`. -/
def integrateStepChecked (forces : List (Vector3 K)) (bodies : List (CelestialBody K))
    (i : Nat) : Option (List (CelestialBody K)) :=
  match forces[i]?, bodies[i]? with
  | some f, some b => do
    let c ← integrateBodyChecked f b
    pure (bodies.set i c)
  | _, _ => pure bodies

/-- Guarded integration loop (lines 84-96). -/
def integrateChecked (forces : List (Vector3 K)) (bodies : List (CelestialBody K)) :
    Option (List (CelestialBody K)) :=
  (List.range bodies.length).foldlM (integrateStepChecked forces) bodies

/-- Guarded tick (lines 73-96): `none` as soon as one divisor is zero. -/
def tickChecked (sqrt : K → K) (bodies : List (CelestialBody K)) :
    Option (List (CelestialBody K)) := do
  let forces ← accumulateForcesChecked sqrt bodies
  integrateChecked forces bodies

end Checked

/-! ## Bodies used in examples -/

/-- A body with the given mass, position and velocity and a shape of radius 1. -/
def pointMass (m : K) (p v : Vector3 K) : CelestialBody K :=
  ⟨"body", m, p, v, CircleShape.ofRadius 1⟩

/-- Body A of the two-body scenario: mass `1e30`, at rest at the origin. -/
def scenarioA : CelestialBody K :=
  ⟨"A", 1e30, ⟨0, 0, 0⟩, ⟨0, 0, 0⟩, CircleShape.ofRadius 1⟩

/-- Body B of the two-body scenario: mass `1e24` at `(1e11, 0, 0)` with velocity
`(0, 30000, 0)`. -/
def scenarioB : CelestialBody K :=
  ⟨"B", 1e24, ⟨1e11, 0, 0⟩, ⟨0, 30000, 0⟩, CircleShape.ofRadius 1⟩

end Program

/-! ## The arithmetic of `double`

IEEE 754 binary64: every operation returns the representable value nearest to
the exact result, ties going to the even mantissa; results too large become an
infinity, invalid operations give NaN.  Each `+`, `-`, `*`, `/` and `std::sqrt`
of the source is one such operation (no fused or extended-precision
evaluation), and a decimal literal denotes the double nearest to it. -/

/-- Position of the highest set bit, searched from `2^j` downwards. -/
def floorLog2Aux : Nat → Nat → Nat → Nat
  | 0, _, r => r
  | j + 1, n, r => floorLog2Aux j n (if 2 ^ (r + 2 ^ j) ≤ n then r + 2 ^ j else r)

/-- Number of bits of `n` (`0` for `0`), for `n < 2^16384`. -/
def bitLen (n : Nat) : Nat :=
  if n = 0 then 0 else floorLog2Aux 14 n 0 + 1

/-- Integer square root, bit by bit from bit `i - 1` down. -/
def isqrtAux : Nat → Nat → Nat → Nat
  | 0, _, r => r
  | i + 1, n, r => isqrtAux i n (if (r + 2 ^ i) * (r + 2 ^ i) ≤ n then r + 2 ^ i else r)

/-- Largest `r` with `r * r ≤ n`. -/
def isqrt (n : Nat) : Nat :=
  isqrtAux (bitLen n / 2 + 1) n 0

/-- The `double` of the source: an IEEE 754 binary64 value.  `finite neg m e` is
`(-1)^neg * m * 2^(e - 1074)` with `m < 2^53`, `e ≤ 2045`, and `m < 2^52` only
for `e = 0` (zeros and subnormals), so that two doubles with the same bits, and
only those, are equal terms; there is a single NaN. -/
inductive Double where
  | finite (neg : Bool) (m : Nat) (e : Nat)
  | inf (neg : Bool)
  | nan
deriving DecidableEq, Repr

namespace Double

/-- Build the double from a mantissa `m ≤ 2^53` already rounded at exponent `e`. -/
def pack (neg : Bool) (m e : Nat) : Double :=
  if m = 2 ^ 53 then (if 2045 ≤ e then inf neg else finite neg (2 ^ 52) (e + 1))
  else if 2045 < e then inf neg
  else finite neg m e

/-- Round to nearest, ties to even, the magnitude `(M + δ) * 2^up / 2^down * 2^(-1074)`,
where `δ = 0` if `sticky` is false and `0 < δ < 1` otherwise. -/
def round (neg : Bool) (M up down : Nat) (sticky : Bool) : Double :=
  if M = 0 then finite neg 0 0
  else
    let e := bitLen M + up - (down + 53)
    if down + e ≤ up then pack neg (M * 2 ^ (up - (down + e))) e
    else
      let sh := down + e - up
      let q := M / 2 ^ sh
      let r := M % 2 ^ sh
      let half := 2 ^ (sh - 1)
      let roundUp := decide (half < r) || (r == half && (sticky || q % 2 == 1))
      pack neg (if roundUp then q + 1 else q) e

/-- Unary minus: the sign bit is flipped. -/
def neg : Double → Double
  | finite s m e => finite (!s) m e
  | inf s => inf (!s)
  | nan => nan

/-- Sum of two doubles: the exact sum, rounded. -/
def add : Double → Double → Double
  | nan, _ => nan
  | _, nan => nan
  | inf s, inf t => if s = t then inf s else nan
  | inf s, finite _ _ _ => inf s
  | finite _ _ _, inf t => inf t
  | finite s m e, finite t n f =>
    let a := m * 2 ^ e
    let b := n * 2 ^ f
    if s = t then round s (a + b) 0 0 false
    else if a = b then finite false 0 0
    else if b < a then round s (a - b) 0 0 false
    else round t (b - a) 0 0 false

/-- Difference of two doubles. -/
def sub (x y : Double) : Double := add x (neg y)

/-- Product of two doubles: the exact product, rounded. -/
def mul : Double → Double → Double
  | nan, _ => nan
  | _, nan => nan
  | inf s, inf t => inf (xor s t)
  | inf s, finite t n _ => if n = 0 then nan else inf (xor s t)
  | finite s m _, inf t => if m = 0 then nan else inf (xor s t)
  | finite s m e, finite t n f => round (xor s t) (m * n) (e + f) 1074 false

/-- Quotient of two doubles: the exact quotient, rounded; a non-zero value
divided by zero is an infinity, `0 / 0` and `inf / inf` are NaN. -/
def div : Double → Double → Double
  | nan, _ => nan
  | _, nan => nan
  | inf _, inf _ => nan
  | inf s, finite t _ _ => inf (xor s t)
  | finite s _ _, inf t => finite (xor s t) 0 0
  | finite s m e, finite t n f =>
    if n = 0 then (if m = 0 then nan else inf (xor s t))
    else
      let k := e + 1200
      round (xor s t) (m * 2 ^ k / n) (e + 1074) (f + k) (m * 2 ^ k % n != 0)

/-- Correctly rounded square root, `std::sqrt`. -/
def sqrt : Double → Double
  | nan => nan
  | inf s => if s then nan else inf false
  | finite s m e =>
    if m = 0 then finite s 0 0
    else if s then nan
    else
      let p := 128 + e % 2
      let M := m * 2 ^ p
      let r := isqrt M
      round false r ((e + 1074 - p) / 2) 0 (r * r != M)

/-- Conversion of a natural number to the nearest double. -/
def ofNat (n : Nat) : Double := round false n 1074 0 false

/-- Conversion of an integer to the nearest double. -/
def ofInt : Int → Double
  | Int.ofNat n => ofNat n
  | Int.negSucc n => round true (n + 1) 1074 0 false

/-- The double nearest to the decimal literal `mantissa * 10^(± decimalExponent)`,
the exponent being negative when `exponentSign` is true. -/
def ofScientific (mantissa : Nat) (exponentSign : Bool) (decimalExponent : Nat) : Double :=
  if exponentSign then
    let den := 10 ^ decimalExponent
    let k := bitLen den + 1200
    round false (mantissa * 2 ^ k / den) 1074 k (mantissa * 2 ^ k % den != 0)
  else round false (mantissa * 10 ^ decimalExponent) 1074 0 false

/-- The comparison `==` of doubles: NaN is equal to nothing, `+0` equals `-0`. -/
def ieeeEq : Double → Double → Bool
  | nan, _ => false
  | _, nan => false
  | inf s, inf t => s == t
  | inf _, finite _ _ _ => false
  | finite _ _ _, inf _ => false
  | finite s m e, finite t n f => (m == 0 && n == 0) || (s == t && m == n && e == f)

/-- The comparison `<` of doubles. -/
def ieeeLt : Double → Double → Bool
  | nan, _ => false
  | _, nan => false
  | inf s, inf t => s && !t
  | inf s, finite _ _ _ => s
  | finite _ _ _, inf t => !t
  | finite s m e, finite t n f =>
    match s, t with
    | false, false => decide (m * 2 ^ e < n * 2 ^ f)
    | true, true => decide (n * 2 ^ f < m * 2 ^ e)
    | true, false => !(m == 0 && n == 0)
    | false, true => false

instance : Add Double := ⟨add⟩
instance : Sub Double := ⟨sub⟩
instance : Mul Double := ⟨mul⟩
instance : Div Double := ⟨div⟩
instance : Zero Double := ⟨finite false 0 0⟩
instance : One Double := ⟨ofNat 1⟩
instance : NatCast Double := ⟨ofNat⟩
instance : IntCast Double := ⟨ofInt⟩
instance : OfScientific Double := ⟨ofScientific⟩
instance : LT Double := ⟨fun x y => ieeeLt x y = true⟩
instance (x y : Double) : Decidable (x < y) := inferInstanceAs (Decidable (ieeeLt x y = true))

end Double

/-- Componentwise `==` of two vectors of doubles. -/
def Vector3.ieeeEq (u v : Vector3 Double) : Bool :=
  u.x.ieeeEq v.x && u.y.ieeeEq v.y && u.z.ieeeEq v.z

/-- A body of doubles with mass `m`, at rest at the point `(x, 0, 0)`. -/
def restingAt (m x : Double) : CelestialBody Double :=
  pointMass m ⟨x, 0, 0⟩ ⟨0, 0, 0⟩

/-! ## Basic facts about the vector operations -/

section VectorFacts

variable {K : Type} [Field K]

theorem Vector3.add_def (u v : Vector3 K) :
    u + v = ⟨u.x + v.x, u.y + v.y, u.z + v.z⟩ := rfl

theorem Vector3.sub_def (u v : Vector3 K) :
    u - v = ⟨u.x - v.x, u.y - v.y, u.z - v.z⟩ := rfl

theorem Vector3.mul_def (u : Vector3 K) (c : K) :
    u * c = ⟨u.x * c, u.y * c, u.z * c⟩ := rfl

theorem Vector3.div_def (u : Vector3 K) (c : K) :
    u / c = ⟨u.x / c, u.y / c, u.z / c⟩ := rfl

theorem Vector3.add_zero_vec (u : Vector3 K) : u + Vector3.zero = u := by
  simp [Vector3.add_def, Vector3.zero]

theorem Vector3.zero_add_vec (u : Vector3 K) : Vector3.zero + u = u := by
  simp [Vector3.add_def, Vector3.zero]

theorem Vector3.add_comm_vec (u v : Vector3 K) : u + v = v + u := by
  simp [Vector3.add_def, add_comm]

theorem Vector3.add_assoc_vec (u v w : Vector3 K) : u + v + w = u + (v + w) := by
  simp [Vector3.add_def, add_assoc]

end VectorFacts

/-! ## The force between two bodies -/

section Force

/-- The constant `G` is positive. -/
theorem G_pos : 0 < G ℝ := by
  unfold G
  norm_num

/-- Sum of the squared components of the separation, the argument of the square
root in `calculateGravitationalForce`. -/
theorem sep_sq_nonneg (u : Vector3 ℝ) : 0 ≤ u.x * u.x + u.y * u.y + u.z * u.z := by
  nlinarith [mul_self_nonneg u.x, mul_self_nonneg u.y, mul_self_nonneg u.z]

/-- The distance vanishes only for the zero separation. -/
theorem norm_pos_of_ne (p q : Vector3 ℝ) (h : p ≠ q) :
    0 < Vector3.norm Real.sqrt (q - p) := by
  unfold Vector3.norm
  apply Real.sqrt_pos.mpr
  simp only [Vector3.sub_def]
  by_contra hcon
  have hz : (q.x - p.x) * (q.x - p.x) + (q.y - p.y) * (q.y - p.y)
      + (q.z - p.z) * (q.z - p.z) = 0 :=
    le_antisymm (not_lt.mp hcon) (sep_sq_nonneg ⟨q.x - p.x, q.y - p.y, q.z - p.z⟩)
  have hx : q.x - p.x = 0 := by
    nlinarith [mul_self_nonneg (q.x - p.x), mul_self_nonneg (q.y - p.y),
      mul_self_nonneg (q.z - p.z)]
  have hy : q.y - p.y = 0 := by
    nlinarith [mul_self_nonneg (q.x - p.x), mul_self_nonneg (q.y - p.y),
      mul_self_nonneg (q.z - p.z)]
  have hzz : q.z - p.z = 0 := by
    nlinarith [mul_self_nonneg (q.x - p.x), mul_self_nonneg (q.y - p.y),
      mul_self_nonneg (q.z - p.z)]
  apply h
  ext
  · linarith
  · linarith
  · linarith

/-- The force is the separation scaled by `G * ma * mb / (d * d) / d`. -/
theorem force_eq_scaled (a b : CelestialBody ℝ) :
    calculateGravitationalForce Real.sqrt a b
      = (b.position - a.position)
        * ((G ℝ * a.mass * b.mass)
            / (Vector3.norm Real.sqrt (b.position - a.position)
                * Vector3.norm Real.sqrt (b.position - a.position))
          / Vector3.norm Real.sqrt (b.position - a.position)) := by
  simp only [calculateGravitationalForce, Vector3.norm, Vector3.mul_def, Vector3.div_def]
  ext <;> simp only <;> ring

/-- C1: for two bodies with positive masses at Euclidean distance `d > 0`, the
Euclidean norm of `calculateGravitationalForce a b` is `G * a.mass * b.mass / d^2`,
where `G` is `6.67430e-11`, that is `66743 / 10^15`. -/
theorem force_magnitude (a b : CelestialBody ℝ) (ha : 0 < a.mass) (hb : 0 < b.mass)
    (hd : 0 < Vector3.norm Real.sqrt (b.position - a.position)) :
    Vector3.norm Real.sqrt (calculateGravitationalForce Real.sqrt a b)
        = G ℝ * a.mass * b.mass / (Vector3.norm Real.sqrt (b.position - a.position)) ^ 2
      ∧ G ℝ = 66743 / 10 ^ 15 := by
  refine ⟨?_, by unfold G; norm_num⟩
  rw [force_eq_scaled]
  set u := b.position - a.position with hu
  set d := Vector3.norm Real.sqrt u with hdef
  have hS : u.x * u.x + u.y * u.y + u.z * u.z = d * d := by
    rw [hdef, Vector3.norm, Real.mul_self_sqrt (sep_sq_nonneg u)]
  have hM : 0 < G ℝ * a.mass * b.mass := mul_pos (mul_pos G_pos ha) hb
  have hk : 0 < G ℝ * a.mass * b.mass / (d * d) / d :=
    div_pos (div_pos hM (mul_pos hd hd)) hd
  set k := G ℝ * a.mass * b.mass / (d * d) / d with hkdef
  have hnorm : Vector3.norm Real.sqrt (u * k) = d * k := by
    simp only [Vector3.norm, Vector3.mul_def]
    have : u.x * k * (u.x * k) + u.y * k * (u.y * k) + u.z * k * (u.z * k)
        = (d * k) * (d * k) := by
      calc u.x * k * (u.x * k) + u.y * k * (u.y * k) + u.z * k * (u.z * k)
          = (u.x * u.x + u.y * u.y + u.z * u.z) * (k * k) := by ring
        _ = (d * k) * (d * k) := by rw [hS]; ring
    rw [this, Real.sqrt_mul_self (le_of_lt (mul_pos hd hk))]
  rw [hnorm, hkdef]
  field_simp
  ring

/-- Witness for C1: unit masses at distance 5 (separation `(3, 4, 0)`). -/
theorem force_magnitude_witness :
    Vector3.norm Real.sqrt (calculateGravitationalForce Real.sqrt
        (⟨"a", 1, ⟨0, 0, 0⟩, ⟨0, 0, 0⟩, CircleShape.ofRadius 1⟩ : CelestialBody ℝ)
        ⟨"b", 1, ⟨3, 4, 0⟩, ⟨0, 0, 0⟩, CircleShape.ofRadius 1⟩)
      = G ℝ * 1 * 1 / (Vector3.norm Real.sqrt
          ((⟨3, 4, 0⟩ : Vector3 ℝ) - ⟨0, 0, 0⟩)) ^ 2 :=
  (force_magnitude ⟨"a", 1, ⟨0, 0, 0⟩, ⟨0, 0, 0⟩, CircleShape.ofRadius 1⟩
    ⟨"b", 1, ⟨3, 4, 0⟩, ⟨0, 0, 0⟩, CircleShape.ofRadius 1⟩
    (by norm_num) (by norm_num)
    (norm_pos_of_ne _ _ (by intro h; have := congrArg Vector3.x h; norm_num at this))).1

/-- The distance is the same in both directions. -/
theorem norm_sub_swap (p q : Vector3 ℝ) :
    Vector3.norm Real.sqrt (p - q) = Vector3.norm Real.sqrt (q - p) := by
  simp only [Vector3.norm, Vector3.sub_def]
  congr 1
  ring

/-- The two forces of a pair are opposite, as vectors added to zero. -/
theorem force_add_swap (a b : CelestialBody ℝ) :
    calculateGravitationalForce Real.sqrt a b + calculateGravitationalForce Real.sqrt b a
      = Vector3.zero := by
  rw [force_eq_scaled a b, force_eq_scaled b a, norm_sub_swap a.position b.position]
  simp only [Vector3.sub_def, Vector3.mul_def, Vector3.add_def, Vector3.zero]
  ext <;> simp only <;> ring

/-- C2: for two bodies with positive masses and distinct positions, the force on
`a` points from `a` toward `b`: it is `(b.position - a.position) * k` for some
real `k > 0`. -/
theorem force_direction (a b : CelestialBody ℝ) (ha : 0 < a.mass) (hb : 0 < b.mass)
    (hne : a.position ≠ b.position) :
    ∃ k : ℝ, 0 < k ∧
      calculateGravitationalForce Real.sqrt a b = (b.position - a.position) * k := by
  have hd := norm_pos_of_ne a.position b.position hne
  refine ⟨_, ?_, force_eq_scaled a b⟩
  exact div_pos (div_pos (mul_pos (mul_pos G_pos ha) hb) (mul_pos hd hd)) hd

/-- Witness for C2: unit masses at the origin and at `(3, 4, 0)`. -/
theorem force_direction_witness :
    ∃ k : ℝ, 0 < k ∧
      calculateGravitationalForce Real.sqrt
          (⟨"a", 1, ⟨0, 0, 0⟩, ⟨0, 0, 0⟩, CircleShape.ofRadius 1⟩ : CelestialBody ℝ)
          ⟨"b", 1, ⟨3, 4, 0⟩, ⟨0, 0, 0⟩, CircleShape.ofRadius 1⟩
        = ((⟨3, 4, 0⟩ : Vector3 ℝ) - ⟨0, 0, 0⟩) * k :=
  force_direction ⟨"a", 1, ⟨0, 0, 0⟩, ⟨0, 0, 0⟩, CircleShape.ofRadius 1⟩
    ⟨"b", 1, ⟨3, 4, 0⟩, ⟨0, 0, 0⟩, CircleShape.ofRadius 1⟩
    (by norm_num) (by norm_num)
    (by intro h; have := congrArg Vector3.x h; norm_num at this)

end Force

/-! ## The loops of a tick in closed form -/

section Loops

/-- Writing back the value already stored at an index changes nothing. -/
theorem set_of_getElem? {α : Type} (l : List α) (i : Nat) (x : α) (h : l[i]? = some x) :
    l.set i x = l := by
  apply List.ext_getElem?
  intro k
  rw [List.getElem?_set]
  by_cases hik : i = k
  · subst hik
    obtain ⟨hlt, _⟩ := List.getElem?_eq_some.mp h
    simp [hlt, h]
  · simp [hik]

/-- Erasing index `i` from a prefix that grows by one element. -/
theorem eraseIdx_take_succ {α : Type} (l : List α) (i m : Nat) (x : α)
    (hx : l[m]? = some x) :
    (l.take (m + 1)).eraseIdx i
      = if i = m then (l.take m).eraseIdx i else (l.take m).eraseIdx i ++ [x] := by
  obtain ⟨hm, _⟩ := List.getElem?_eq_some.mp hx
  have hlen : (l.take m).length = m := by
    rw [List.length_take]; omega
  rw [List.take_succ, hx]
  simp only [Option.toList]
  by_cases him : i = m
  · subst him
    rw [if_pos rfl, List.eraseIdx_append_of_length_le (le_of_eq hlen), hlen]
    simp [List.eraseIdx_of_length_le (le_of_eq hlen)]
  · rw [if_neg him]
    rcases Nat.lt_or_gt_of_ne him with hlt | hgt
    · rw [List.eraseIdx_append_of_lt_length (by omega)]
    · rw [List.eraseIdx_append_of_length_le (by omega),
        List.eraseIdx_of_length_le (by omega : (l.take m).length ≤ i)]
      congr 1
      apply List.eraseIdx_of_length_le
      simp only [List.length_singleton]
      omega

/-- A loop over `0 .. m - 1` whose step at index `i` replaces entry `i` by
`g i` of the old entry: the entries below `m` are updated, the others kept. -/
theorem foldl_range_update {α : Type} (n : Nat) (step : List α → Nat → List α)
    (g : Nat → α → α)
    (hstep : ∀ (l : List α) (i : Nat) (x : α), l.length = n → l[i]? = some x →
      step l i = l.set i (g i x))
    (l : List α) (hl : l.length = n) (m : Nat) (hm : m ≤ n) :
    ((List.range m).foldl step l).length = n ∧
      ∀ (k : Nat) (x : α), l[k]? = some x →
        ((List.range m).foldl step l)[k]? = some (if k < m then g k x else x) := by
  induction m with
  | zero =>
    refine ⟨by simpa using hl, ?_⟩
    intro k x hk
    simpa using hk
  | succ m ih =>
    obtain ⟨ihlen, ihget⟩ := ih (by omega)
    have hmlt : m < l.length := by omega
    have hcur := ihget m l[m] (List.getElem?_eq_getElem hmlt)
    simp only [lt_irrefl, if_false] at hcur
    rw [List.range_succ, List.foldl_append, List.foldl_cons, List.foldl_nil,
      hstep _ m l[m] ihlen hcur]
    refine ⟨by rw [List.length_set]; exact ihlen, ?_⟩
    intro k x hk
    rw [List.getElem?_set]
    by_cases hmk : m = k
    · subst hmk
      have hx : l[m] = x := by
        rw [List.getElem?_eq_getElem hmlt] at hk
        exact Option.some.inj hk
      simp [ihlen, hm, hx]
      omega
    · rw [if_neg hmk, ihget k x hk]
      by_cases hkm : k < m
      · simp [hkm, Nat.lt_succ_of_lt hkm]
      · have : ¬ k < m + 1 := by omega
        simp [hkm, this]

variable {K : Type} [Field K]

theorem sumFrom_append_singleton (init : Vector3 K) (l : List (Vector3 K)) (v : Vector3 K) :
    Vector3.sumFrom init (l ++ [v]) = Vector3.sumFrom init l + v := by
  simp [Vector3.sumFrom, List.foldl_append]

/-- The inner loop run for `j < m`: entry `i` has gained the forces of the first
`m` bodies other than body `i`, the other entries are untouched. -/
theorem accumulateRow_upto (force : CelestialBody K → CelestialBody K → Vector3 K)
    (bodies : List (CelestialBody K)) (forces : List (Vector3 K)) (i : Nat)
    (bi : CelestialBody K) (f0 : Vector3 K)
    (hbi : bodies[i]? = some bi) (hf : forces[i]? = some f0)
    (m : Nat) (hm : m ≤ bodies.length) :
    (List.range m).foldl (accumulateStep force bodies i) forces
      = forces.set i
          (Vector3.sumFrom f0 (((bodies.take m).eraseIdx i).map (force bi))) := by
  induction m with
  | zero =>
    simp only [List.range_zero, List.foldl_nil, List.take_zero, List.eraseIdx_nil,
      List.map_nil, Vector3.sumFrom]
    exact (set_of_getElem? forces i f0 hf).symm
  | succ m ih =>
    have hmlt : m < bodies.length := by omega
    have hbm : bodies[m]? = some bodies[m] := List.getElem?_eq_getElem hmlt
    obtain ⟨hilt, _⟩ := List.getElem?_eq_some.mp hf
    rw [List.range_succ, List.foldl_append, ih (by omega), List.foldl_cons, List.foldl_nil,
      eraseIdx_take_succ bodies i m bodies[m] hbm]
    unfold accumulateStep
    by_cases him : i = m
    · simp [him]
    · rw [if_pos him, if_neg him, List.getElem?_set_self hilt, hbi, hbm]
      simp only [List.set_set, List.map_append, List.map_cons, List.map_nil,
        sumFrom_append_singleton]

/-- The whole inner loop for index `i`. -/
theorem accumulateRow_eq (force : CelestialBody K → CelestialBody K → Vector3 K)
    (bodies : List (CelestialBody K)) (forces : List (Vector3 K)) (i : Nat)
    (bi : CelestialBody K) (f0 : Vector3 K)
    (hbi : bodies[i]? = some bi) (hf : forces[i]? = some f0) :
    accumulateRow force bodies forces i
      = forces.set i (Vector3.sumFrom f0 ((bodies.eraseIdx i).map (force bi))) := by
  unfold accumulateRow
  rw [accumulateRow_upto force bodies forces i bi f0 hbi hf bodies.length (le_refl _),
    List.take_length]

/-- The force array has one entry per body, and entry `i` is the net force on
body `i`. -/
theorem accumulateForcesWith_closed (force : CelestialBody K → CelestialBody K → Vector3 K)
    (bodies : List (CelestialBody K)) :
    (accumulateForcesWith force bodies).length = bodies.length ∧
      ∀ (i : Nat) (h : i < bodies.length),
        (accumulateForcesWith force bodies)[i]?
          = some (netForceWith force bodies i bodies[i]) := by
  have key := foldl_range_update bodies.length (accumulateRow force bodies)
    (fun i f => match bodies[i]? with
      | some bi => Vector3.sumFrom f ((bodies.eraseIdx i).map (force bi))
      | none => f)
    (by
      intro l i x hl hx
      obtain ⟨hilt, _⟩ := List.getElem?_eq_some.mp hx
      have hib : i < bodies.length := by omega
      have hbi : bodies[i]? = some bodies[i] := List.getElem?_eq_getElem hib
      rw [accumulateRow_eq force bodies l i bodies[i] x hbi hx]
      simp only [hbi])
    (List.replicate bodies.length Vector3.zero) (by simp) bodies.length (le_refl _)
  refine ⟨key.1, ?_⟩
  intro i h
  have := key.2 i Vector3.zero (by simp [List.getElem?_replicate, h])
  unfold accumulateForcesWith
  rw [this]
  simp only [h, if_true, List.getElem?_eq_getElem h]
  rfl

/-- The integration loop advances every body with its own entry of the force
array. -/
theorem integrate_closed (forces : List (Vector3 K)) (bodies : List (CelestialBody K)) :
    (integrate forces bodies).length = bodies.length ∧
      ∀ (i : Nat) (f : Vector3 K) (b : CelestialBody K),
        forces[i]? = some f → bodies[i]? = some b →
          (integrate forces bodies)[i]? = some (integrateBody f b) := by
  have key := foldl_range_update bodies.length (integrateStep forces)
    (fun i b => match forces[i]? with
      | some f => integrateBody f b
      | none => b)
    (by
      intro l i x _ hx
      unfold integrateStep
      rw [hx]
      cases hfi : forces[i]? with
      | none => simp only [hfi]; exact (set_of_getElem? l i x hx).symm
      | some f => simp only [hfi])
    bodies rfl bodies.length (le_refl _)
  refine ⟨key.1, ?_⟩
  intro i f b hf hb
  obtain ⟨hilt, _⟩ := List.getElem?_eq_some.mp hb
  have := key.2 i b hb
  unfold integrate
  rw [this]
  simp only [hilt, if_true, hf]

/-- One tick in closed form: the list keeps its length and body `i` is advanced
with the net force computed from the bodies before the tick. -/
theorem tick_closed (sqrt : K → K) (bodies : List (CelestialBody K)) :
    (tick sqrt bodies).length = bodies.length ∧
      ∀ (i : Nat) (h : i < bodies.length),
        (tick sqrt bodies)[i]?
          = some (integrateBody (netForce sqrt bodies i bodies[i]) bodies[i]) := by
  have hF := accumulateForcesWith_closed (calculateGravitationalForce sqrt) bodies
  have hI := integrate_closed (accumulateForces sqrt bodies) bodies
  refine ⟨hI.1, ?_⟩
  intro i h
  unfold tick
  exact hI.2 i _ _ (hF.2 i h) (List.getElem?_eq_getElem h)

end Loops

/-! ## Force accumulation and integration of one tick -/

section Tick

variable {K : Type} [Field K]

/-- C4: the force-accumulation loop yields one entry per body; entry `i` is the
sum, started from `(0,0,0)` and taken in list order, of the forces on body `i`
from the bodies at all indices other than `i`.  The same holds for every pair
function put in the place of `calculateGravitationalForce`, so the value for the
pair `(i, i)` is never used. -/
theorem accumulateForces_entries (sqrt : K → K) (bodies : List (CelestialBody K)) :
    (accumulateForces sqrt bodies).length = bodies.length
      ∧ (∀ (i : Nat) (h : i < bodies.length),
          (accumulateForces sqrt bodies)[i]?
            = some (Vector3.sumFrom ⟨0, 0, 0⟩
                ((bodies.eraseIdx i).map (calculateGravitationalForce sqrt bodies[i]))))
      ∧ (∀ (force : CelestialBody K → CelestialBody K → Vector3 K)
          (i : Nat) (h : i < bodies.length),
          (accumulateForcesWith force bodies)[i]?
            = some (Vector3.sumFrom ⟨0, 0, 0⟩
                ((bodies.eraseIdx i).map (force bodies[i])))) := by
  have h := accumulateForcesWith_closed (calculateGravitationalForce sqrt) bodies
  exact ⟨h.1, h.2, fun force => (accumulateForcesWith_closed force bodies).2⟩

/-- Witness for C4: three bodies, the entry of the middle one. -/
theorem accumulateForces_entries_witness :
    (accumulateForces Real.sqrt
        [pointMass 1 ⟨0, 0, 0⟩ ⟨0, 0, 0⟩, pointMass 2 ⟨3, 4, 0⟩ ⟨0, 0, 0⟩,
          pointMass 3 ⟨0, 0, 7⟩ ⟨0, 0, 0⟩])[1]?
      = some (Vector3.sumFrom ⟨0, 0, 0⟩
          ([pointMass 1 ⟨0, 0, 0⟩ ⟨0, 0, 0⟩, pointMass 3 ⟨0, 0, 7⟩ ⟨0, 0, 0⟩].map
            (calculateGravitationalForce Real.sqrt (pointMass (2 : ℝ) ⟨3, 4, 0⟩ ⟨0, 0, 0⟩)))) :=
  (accumulateForces_entries Real.sqrt
    [pointMass 1 ⟨0, 0, 0⟩ ⟨0, 0, 0⟩, pointMass 2 ⟨3, 4, 0⟩ ⟨0, 0, 0⟩,
      pointMass 3 ⟨0, 0, 7⟩ ⟨0, 0, 0⟩]).2.1 1 (by simp)

/-- C5: one tick sets the velocity of body `i` to `v_i + (F_i / m_i) * dt` and
its position to `p_i + v_i' * dt` with `v_i'` the new velocity, where `dt` is
`TIME_STEP = 10000` and `F_i` is entry `i` of the force array, the net force
computed from the bodies as they were before the tick. -/
theorem tick_updates (sqrt : K → K) (bodies : List (CelestialBody K)) (i : Nat)
    (h : i < bodies.length) :
    ∃ (F : Vector3 K) (c : CelestialBody K),
      (accumulateForces sqrt bodies)[i]? = some F
        ∧ F = netForce sqrt bodies i bodies[i]
        ∧ (tick sqrt bodies)[i]? = some c
        ∧ c.velocity = bodies[i].velocity + (F / bodies[i].mass) * TIME_STEP K
        ∧ c.position = bodies[i].position + c.velocity * TIME_STEP K
        ∧ TIME_STEP K = 10000 := by
  refine ⟨netForce sqrt bodies i bodies[i],
    integrateBody (netForce sqrt bodies i bodies[i]) bodies[i], ?_, rfl, ?_, rfl, rfl, rfl⟩
  · exact (accumulateForcesWith_closed (calculateGravitationalForce sqrt) bodies).2 i h
  · exact (tick_closed sqrt bodies).2 i h

/-- Witness for C5: the second of two bodies. -/
theorem tick_updates_witness :
    ∃ (F : Vector3 ℝ) (c : CelestialBody ℝ),
      (accumulateForces Real.sqrt
          [pointMass 1 ⟨0, 0, 0⟩ ⟨0, 0, 0⟩, pointMass 2 ⟨3, 4, 0⟩ ⟨1, 0, 0⟩])[1]? = some F
        ∧ F = netForce Real.sqrt
            [pointMass 1 ⟨0, 0, 0⟩ ⟨0, 0, 0⟩, pointMass 2 ⟨3, 4, 0⟩ ⟨1, 0, 0⟩] 1
            (pointMass 2 ⟨3, 4, 0⟩ ⟨1, 0, 0⟩)
        ∧ (tick Real.sqrt
            [pointMass 1 ⟨0, 0, 0⟩ ⟨0, 0, 0⟩, pointMass 2 ⟨3, 4, 0⟩ ⟨1, 0, 0⟩])[1]? = some c
        ∧ c.velocity = (⟨1, 0, 0⟩ : Vector3 ℝ)
            + (F / (pointMass (2 : ℝ) ⟨3, 4, 0⟩ ⟨1, 0, 0⟩).mass) * TIME_STEP ℝ
        ∧ c.position = (⟨3, 4, 0⟩ : Vector3 ℝ) + c.velocity * TIME_STEP ℝ
        ∧ TIME_STEP ℝ = 10000 :=
  tick_updates Real.sqrt
    [pointMass 1 ⟨0, 0, 0⟩ ⟨0, 0, 0⟩, pointMass 2 ⟨3, 4, 0⟩ ⟨1, 0, 0⟩] 1 (by simp)

end Tick

/-! ## Lists of one and of two bodies -/

section SmallLists

variable {K : Type} [Field K]

/-- The tick of a one-body list: no pair is evaluated. -/
theorem tick_single (sqrt : K → K) (b : CelestialBody K) :
    accumulateForces sqrt [b] = [Vector3.zero]
      ∧ tick sqrt [b] = [integrateBody Vector3.zero b] := by
  constructor <;> rfl

/-- The tick of a two-body list: each body feels the other one. -/
theorem tick_pair (sqrt : K → K) (a b : CelestialBody K) :
    accumulateForces sqrt [a, b]
        = [Vector3.zero + calculateGravitationalForce sqrt a b,
            Vector3.zero + calculateGravitationalForce sqrt b a]
      ∧ tick sqrt [a, b]
        = [integrateBody (Vector3.zero + calculateGravitationalForce sqrt a b) a,
            integrateBody (Vector3.zero + calculateGravitationalForce sqrt b a) b] := by
  constructor <;> rfl

theorem integrateBody_mass (F : Vector3 K) (b : CelestialBody K) :
    (integrateBody F b).mass = b.mass := rfl

theorem integrateBody_velocity (F : Vector3 K) (b : CelestialBody K) :
    (integrateBody F b).velocity = b.velocity + (F / b.mass) * TIME_STEP K := rfl

theorem integrateBody_position (F : Vector3 K) (b : CelestialBody K) :
    (integrateBody F b).position
      = b.position + (b.velocity + (F / b.mass) * TIME_STEP K) * TIME_STEP K := rfl

end SmallLists

/-! ## Momentum of two bodies -/

section Momentum

/-- The momentum of a pair is unchanged by a tick when no mass is zero. -/
theorem momentum_pair_tick (a b : CelestialBody ℝ) (ha : a.mass ≠ 0) (hb : b.mass ≠ 0) :
    totalMomentum (tick Real.sqrt [a, b]) = totalMomentum [a, b] := by
  rw [(tick_pair Real.sqrt a b).2]
  have hsw := force_add_swap a b
  generalize calculateGravitationalForce Real.sqrt a b = Fab at hsw ⊢
  generalize calculateGravitationalForce Real.sqrt b a = Fba at hsw ⊢
  simp only [Vector3.add_def, Vector3.zero, Vector3.mk.injEq] at hsw
  obtain ⟨hx, hy, hz⟩ := hsw
  simp only [totalMomentum, Vector3.sumFrom, List.map_cons, List.map_nil, List.foldl_cons,
    List.foldl_nil, integrateBody_velocity, integrateBody_mass, Vector3.add_def,
    Vector3.mul_def, Vector3.div_def, Vector3.zero]
  have e : ∀ v f m : ℝ, m ≠ 0 → (v + f / m * TIME_STEP ℝ) * m = v * m + f * TIME_STEP ℝ := by
    intro v f m hm
    field_simp
  ext
  · simp only
    rw [e _ _ _ ha, e _ _ _ hb]
    linear_combination TIME_STEP ℝ * hx
  · simp only
    rw [e _ _ _ ha, e _ _ _ hb]
    linear_combination TIME_STEP ℝ * hy
  · simp only
    rw [e _ _ _ ha, e _ _ _ hb]
    linear_combination TIME_STEP ℝ * hz

/-- The momentum of a pair is unchanged by any number of ticks when no mass is
zero. -/
theorem momentum_pair_simulate (n : Nat) (a b : CelestialBody ℝ) (ha : a.mass ≠ 0)
    (hb : b.mass ≠ 0) :
    totalMomentum (simulate Real.sqrt n [a, b]) = totalMomentum [a, b] := by
  induction n generalizing a b with
  | zero => rfl
  | succ n ih =>
    have hstep : simulate Real.sqrt (n + 1) [a, b]
        = simulate Real.sqrt n (tick Real.sqrt [a, b]) := rfl
    rw [hstep, ← momentum_pair_tick a b ha hb, (tick_pair Real.sqrt a b).2]
    exact ih _ _ (by rw [integrateBody_mass]; exact ha) (by rw [integrateBody_mass]; exact hb)

/-- C6: for two bodies with positive masses and distinct positions, the total
momentum after one tick equals the total momentum before it, and so it does
after `n` ticks when the positions are distinct at the start of each of them. -/
theorem two_body_momentum_conserved (a b : CelestialBody ℝ) (ha : 0 < a.mass)
    (hb : 0 < b.mass) (_hne : a.position ≠ b.position) :
    totalMomentum (tick Real.sqrt [a, b]) = totalMomentum [a, b]
      ∧ ∀ n : Nat,
          (∀ k : Nat, k < n →
            ((simulate Real.sqrt k [a, b]).map (fun c => c.position)).Nodup) →
          totalMomentum (simulate Real.sqrt n [a, b]) = totalMomentum [a, b] :=
  ⟨momentum_pair_tick a b (ne_of_gt ha) (ne_of_gt hb),
    fun n _ => momentum_pair_simulate n a b (ne_of_gt ha) (ne_of_gt hb)⟩

/-- Witness for C6: the two bodies of the scenario, after one tick, both as the
first part states it and through the part about `n` ticks. -/
theorem two_body_momentum_conserved_witness :
    totalMomentum (tick Real.sqrt [(scenarioA : CelestialBody ℝ), scenarioB])
        = totalMomentum [(scenarioA : CelestialBody ℝ), scenarioB]
      ∧ totalMomentum (simulate Real.sqrt 1 [(scenarioA : CelestialBody ℝ), scenarioB])
        = totalMomentum [(scenarioA : CelestialBody ℝ), scenarioB] :=
  have h := two_body_momentum_conserved scenarioA scenarioB
    (by simp only [scenarioA]; norm_num) (by simp only [scenarioB]; norm_num)
    (by
      intro h
      have := congrArg Vector3.x h
      simp only [scenarioA, scenarioB] at this
      norm_num at this)
  ⟨h.1, h.2 1 (by
    intro k hk
    have hk0 : k = 0 := by omega
    subst hk0
    simp only [simulate, scenarioA, scenarioB, List.map_cons, List.map_nil,
      List.nodup_cons, List.mem_singleton, List.not_mem_nil, not_false_eq_true,
      List.nodup_nil, and_true, Vector3.mk.injEq]
    norm_num)⟩

end Momentum

/-! ## The two-body scenario -/

section Scenario

/-- Distance between the two bodies of the scenario. -/
theorem scenario_sqrt :
    Real.sqrt ((1e11 - 0) * (1e11 - 0) + (0 - 0) * (0 - 0) + (0 - 0) * (0 - 0)) = 1e11
      ∧ Real.sqrt ((0 - 1e11) * (0 - 1e11) + (0 - 0) * (0 - 0) + (0 - 0) * (0 - 0))
        = 1e11 := by
  constructor
  · rw [show ((1e11 : ℝ) - 0) * (1e11 - 0) + (0 - 0) * (0 - 0) + (0 - 0) * (0 - 0)
        = 1e11 * 1e11 by norm_num]
    exact Real.sqrt_mul_self (by norm_num)
  · rw [show ((0 : ℝ) - 1e11) * (0 - 1e11) + (0 - 0) * (0 - 0) + (0 - 0) * (0 - 0)
        = 1e11 * 1e11 by norm_num]
    exact Real.sqrt_mul_self (by norm_num)

/-- The two pair forces of the scenario. -/
theorem scenario_pair_forces :
    calculateGravitationalForce Real.sqrt (scenarioA : CelestialBody ℝ) scenarioB
        = ⟨6.6743e21, 0, 0⟩
      ∧ calculateGravitationalForce Real.sqrt (scenarioB : CelestialBody ℝ) scenarioA
        = ⟨-6.6743e21, 0, 0⟩ := by
  constructor
  · simp only [calculateGravitationalForce, scenarioA, scenarioB, Vector3.sub_def,
      Vector3.div_def, Vector3.mul_def, scenario_sqrt.1, G]
    ext <;> norm_num
  · simp only [calculateGravitationalForce, scenarioA, scenarioB, Vector3.sub_def,
      Vector3.div_def, Vector3.mul_def, scenario_sqrt.2, G]
    ext <;> norm_num

/-- The force array of the scenario. -/
theorem scenario_forces :
    accumulateForces Real.sqrt [(scenarioA : CelestialBody ℝ), scenarioB]
      = [⟨6.6743e21, 0, 0⟩, ⟨-6.6743e21, 0, 0⟩] := by
  rw [(tick_pair Real.sqrt scenarioA scenarioB).1, scenario_pair_forces.1,
    scenario_pair_forces.2]
  simp only [Vector3.zero, Vector3.add_def]
  norm_num

/-- C7 (scenario): for A (mass `1e30`, at rest at the origin) and B (mass `1e24`
at `(1e11, 0, 0)` with velocity `(0, 30000, 0)`) and `dt = 10000`, the force on A
has positive x and zero y, z, the force on B has negative x and zero y, z, both
have the same norm, and after the tick B has `position.x < 1e11` and a
`position.y` above its original value. -/
theorem scenario_one_tick :
    ∃ (FA FB : Vector3 ℝ) (cB : CelestialBody ℝ),
      accumulateForces Real.sqrt [(scenarioA : CelestialBody ℝ), scenarioB] = [FA, FB]
        ∧ 0 < FA.x ∧ FA.y = 0 ∧ FA.z = 0
        ∧ FB.x < 0 ∧ FB.y = 0 ∧ FB.z = 0
        ∧ Vector3.norm Real.sqrt FA = Vector3.norm Real.sqrt FB
        ∧ (tick Real.sqrt [(scenarioA : CelestialBody ℝ), scenarioB])[1]? = some cB
        ∧ cB.position.x < 1e11
        ∧ (scenarioB : CelestialBody ℝ).position.y < cB.position.y
        ∧ (scenarioB : CelestialBody ℝ).position.y = 0
        ∧ TIME_STEP ℝ = 10000 := by
  refine ⟨⟨6.6743e21, 0, 0⟩, ⟨-6.6743e21, 0, 0⟩,
    integrateBody ⟨-6.6743e21, 0, 0⟩ scenarioB, scenario_forces, by norm_num, rfl, rfl,
    by norm_num, rfl, rfl, ?_, ?_, ?_, ?_, rfl, rfl⟩
  · simp only [Vector3.norm]
    congr 1
    norm_num
  · have h := (integrate_closed (accumulateForces Real.sqrt
        [(scenarioA : CelestialBody ℝ), scenarioB]) [scenarioA, scenarioB]).2 1
        ⟨-6.6743e21, 0, 0⟩ scenarioB (by rw [scenario_forces]; rfl) rfl
    exact h
  · rw [integrateBody_position]
    simp only [scenarioB, Vector3.add_def, Vector3.mul_def, Vector3.div_def, TIME_STEP]
    norm_num
  · rw [integrateBody_position]
    simp only [scenarioB, Vector3.add_def, Vector3.mul_def, Vector3.div_def, TIME_STEP]
    norm_num

end Scenario

/-! ## A single body -/

section SingleBody

/-- A body that feels no force keeps its velocity, whatever its mass. -/
theorem integrateBody_zero_velocity (b : CelestialBody ℝ) :
    (integrateBody Vector3.zero b).velocity = b.velocity := by
  rw [integrateBody_velocity]
  simp only [Vector3.zero, Vector3.div_def, Vector3.mul_def, Vector3.add_def, zero_div,
    zero_mul, add_zero]

/-- A body that feels no force moves by its velocity times the time step. -/
theorem integrateBody_zero_position (b : CelestialBody ℝ) :
    (integrateBody Vector3.zero b).position = b.position + b.velocity * TIME_STEP ℝ := by
  rw [integrateBody_position]
  simp only [Vector3.zero, Vector3.div_def, Vector3.mul_def, Vector3.add_def, zero_div,
    zero_mul, add_zero]

/-- A one-body list after `n` ticks: still one body, with the same mass and
velocity, displaced by `n` steps of uniform motion. -/
theorem single_body_simulate (n : Nat) (b : CelestialBody ℝ) :
    ∃ c : CelestialBody ℝ,
      simulate Real.sqrt n [b] = [c] ∧ c.mass = b.mass ∧ c.velocity = b.velocity
        ∧ c.position = b.position + b.velocity * ((n : ℝ) * TIME_STEP ℝ) := by
  induction n generalizing b with
  | zero =>
    refine ⟨b, rfl, rfl, rfl, ?_⟩
    simp only [Vector3.add_def, Vector3.mul_def, Nat.cast_zero, zero_mul, mul_zero, add_zero]
  | succ n ih =>
    obtain ⟨c, hc, hm, hv, hp⟩ := ih (integrateBody Vector3.zero b)
    have hstep : simulate Real.sqrt (n + 1) [b]
        = simulate Real.sqrt n [integrateBody Vector3.zero b] := by
      show simulate Real.sqrt n (tick Real.sqrt [b]) = _
      rw [(tick_single Real.sqrt b).2]
    refine ⟨c, by rw [hstep, hc], by rw [hm, integrateBody_mass],
      by rw [hv, integrateBody_zero_velocity], ?_⟩
    rw [hp, integrateBody_zero_velocity, integrateBody_zero_position]
    simp only [Vector3.add_def, Vector3.mul_def, Nat.cast_succ]
    ext <;> simp only <;> ring

/-- C8: for a one-body list with positive mass, the state after any number `n`
of ticks is a one-body list whose next tick has net force `(0,0,0)` and
acceleration `(0,0,0) / mass = (0,0,0)`, and whose velocity is the initial
velocity. -/
theorem single_body_velocity (b : CelestialBody ℝ) (hm : 0 < b.mass) (n : Nat) :
    ∃ c : CelestialBody ℝ,
      simulate Real.sqrt n [b] = [c]
        ∧ 0 < c.mass
        ∧ accumulateForces Real.sqrt [c] = [⟨0, 0, 0⟩]
        ∧ (⟨0, 0, 0⟩ : Vector3 ℝ) / c.mass = ⟨0, 0, 0⟩
        ∧ c.velocity = b.velocity := by
  obtain ⟨c, hc, hmass, hv, _⟩ := single_body_simulate n b
  refine ⟨c, hc, by rw [hmass]; exact hm, (tick_single Real.sqrt c).1, ?_, hv⟩
  simp only [Vector3.div_def, zero_div]

/-- Witness for C8: a body of mass 2 moving along x, after three ticks. -/
theorem single_body_velocity_witness :
    ∃ c : CelestialBody ℝ,
      simulate Real.sqrt 3 [pointMass 2 ⟨1, 2, 3⟩ ⟨5, 0, 0⟩] = [c]
        ∧ 0 < c.mass
        ∧ accumulateForces Real.sqrt [c] = [⟨0, 0, 0⟩]
        ∧ (⟨0, 0, 0⟩ : Vector3 ℝ) / c.mass = ⟨0, 0, 0⟩
        ∧ c.velocity = ⟨5, 0, 0⟩ :=
  single_body_velocity (pointMass 2 ⟨1, 2, 3⟩ ⟨5, 0, 0⟩)
    (by simp only [pointMass]; norm_num) 3

/-- Counterexample to C9: a single body of mass 1 at the origin with velocity
`(1, 0, 0)` is at `(10000, 0, 0)` after one tick, not at the origin. -/
theorem single_body_position_moves :
    0 < (pointMass (1 : ℝ) ⟨0, 0, 0⟩ ⟨1, 0, 0⟩).mass
      ∧ (simulate Real.sqrt 1 [pointMass (1 : ℝ) ⟨0, 0, 0⟩ ⟨1, 0, 0⟩]).map
          (fun c => c.position) = [⟨10000, 0, 0⟩]
      ∧ (simulate Real.sqrt 1 [pointMass (1 : ℝ) ⟨0, 0, 0⟩ ⟨1, 0, 0⟩]).map
          (fun c => c.position) ≠ [(pointMass (1 : ℝ) ⟨0, 0, 0⟩ ⟨1, 0, 0⟩).position] := by
  have hsim : (simulate Real.sqrt 1 [pointMass (1 : ℝ) ⟨0, 0, 0⟩ ⟨1, 0, 0⟩]).map
      (fun c => c.position) = [⟨10000, 0, 0⟩] := by
    show (tick Real.sqrt [pointMass (1 : ℝ) ⟨0, 0, 0⟩ ⟨1, 0, 0⟩]).map
      (fun c => c.position) = _
    rw [(tick_single Real.sqrt _).2]
    simp only [List.map_cons, List.map_nil, integrateBody_zero_position, pointMass,
      Vector3.add_def, Vector3.mul_def, TIME_STEP]
    norm_num
  refine ⟨by simp only [pointMass]; norm_num, hsim, ?_⟩
  rw [hsim]
  simp only [pointMass, ne_eq, List.cons.injEq, Vector3.mk.injEq, and_true]
  norm_num

/-- C9 as amended: for a one-body list with positive mass and velocity
`(0,0,0)`, the position is the initial position after any number of ticks. -/
theorem single_body_at_rest (b : CelestialBody ℝ) (hm : 0 < b.mass)
    (hv : b.velocity = ⟨0, 0, 0⟩) (n : Nat) :
    ∃ c : CelestialBody ℝ,
      simulate Real.sqrt n [b] = [c] ∧ 0 < c.mass ∧ c.position = b.position := by
  obtain ⟨c, hc, hmass, _, hp⟩ := single_body_simulate n b
  refine ⟨c, hc, by rw [hmass]; exact hm, ?_⟩
  rw [hp, hv]
  simp only [Vector3.add_def, Vector3.mul_def, zero_mul, add_zero]

/-- Witness for C9 as amended: a body at rest at `(1, 2, 3)`, after three
ticks. -/
theorem single_body_at_rest_witness :
    ∃ c : CelestialBody ℝ,
      simulate Real.sqrt 3 [pointMass 2 ⟨1, 2, 3⟩ ⟨0, 0, 0⟩] = [c]
        ∧ 0 < c.mass ∧ c.position = ⟨1, 2, 3⟩ :=
  single_body_at_rest (pointMass 2 ⟨1, 2, 3⟩ ⟨0, 0, 0⟩)
    (by simp only [pointMass]; norm_num) rfl 3

end SingleBody

/-! ## The order of the two updates -/

section UpdateOrder

theorem integrateBodyReversed_velocity (F : Vector3 ℝ) (b : CelestialBody ℝ) :
    (integrateBodyReversed F b).velocity = b.velocity + (F / b.mass) * TIME_STEP ℝ := rfl

theorem integrateBodyReversed_position (F : Vector3 ℝ) (b : CelestialBody ℝ) :
    (integrateBodyReversed F b).position = b.position + b.velocity * TIME_STEP ℝ := rfl

/-- The time step is not zero. -/
theorem TIME_STEP_ne_zero : TIME_STEP ℝ ≠ 0 := by
  unfold TIME_STEP
  norm_num

/-- With a non-zero mass and a non-zero force the two update orders give
different positions. -/
theorem integrateBody_position_ne_reversed (F : Vector3 ℝ) (b : CelestialBody ℝ)
    (hm : b.mass ≠ 0) (hF : F ≠ ⟨0, 0, 0⟩) :
    (integrateBody F b).position ≠ (integrateBodyReversed F b).position := by
  intro heq
  rw [integrateBody_position, integrateBodyReversed_position] at heq
  simp only [Vector3.add_def, Vector3.mul_def, Vector3.div_def, Vector3.mk.injEq] at heq
  obtain ⟨hx, hy, hz⟩ := heq
  have hdt := TIME_STEP_ne_zero
  have key : ∀ p v f : ℝ,
      p + (v + f / b.mass * TIME_STEP ℝ) * TIME_STEP ℝ = p + v * TIME_STEP ℝ → f = 0 := by
    intro p v f h
    have h1 : f / b.mass * TIME_STEP ℝ * TIME_STEP ℝ = 0 := by linarith
    have h2 : f / b.mass = 0 := by
      rcases mul_eq_zero.mp h1 with h3 | h3
      · rcases mul_eq_zero.mp h3 with h4 | h4
        · exact h4
        · exact absurd h4 hdt
      · exact absurd h3 hdt
    rcases div_eq_zero_iff.mp h2 with h5 | h5
    · exact h5
    · exact absurd h5 hm
  apply hF
  ext
  · exact key _ _ _ hx
  · exact key _ _ _ hy
  · exact key _ _ _ hz

/-- C10: when body `i` has a non-zero mass and entry `i` of the force array of a
tick is not `(0,0,0)`, the position of body `i` after the tick differs from the
position after a tick with the reversed update order (position advanced with the
velocity from before the tick, then velocity updated); the velocities agree. -/
theorem update_order_observable (bodies : List (CelestialBody ℝ)) (i : Nat)
    (b : CelestialBody ℝ) (F : Vector3 ℝ) (hb : bodies[i]? = some b)
    (hF : (accumulateForces Real.sqrt bodies)[i]? = some F)
    (hm : b.mass ≠ 0) (hne : F ≠ ⟨0, 0, 0⟩) :
    ∃ c r : CelestialBody ℝ,
      (tick Real.sqrt bodies)[i]? = some c
        ∧ (tickReversed Real.sqrt bodies)[i]? = some r
        ∧ c.position ≠ r.position
        ∧ c.velocity = r.velocity := by
  refine ⟨integrateBody F b, integrateBodyReversed F b, ?_, ?_,
    integrateBody_position_ne_reversed F b hm hne, rfl⟩
  · exact (integrate_closed (accumulateForces Real.sqrt bodies) bodies).2 i F b hF hb
  · unfold tickReversed
    rw [List.getElem?_zipWith, hF, hb]

/-- Witness for C10: body A of the two-body scenario. -/
theorem update_order_observable_witness :
    ∃ c r : CelestialBody ℝ,
      (tick Real.sqrt [(scenarioA : CelestialBody ℝ), scenarioB])[0]? = some c
        ∧ (tickReversed Real.sqrt [(scenarioA : CelestialBody ℝ), scenarioB])[0]? = some r
        ∧ c.position ≠ r.position
        ∧ c.velocity = r.velocity :=
  update_order_observable [scenarioA, scenarioB] 0 scenarioA ⟨6.6743e21, 0, 0⟩ rfl
    (by rw [scenario_forces]; rfl)
    (by simp only [scenarioA]; norm_num)
    (by
      intro h
      have := congrArg Vector3.x h
      norm_num at this)

end UpdateOrder

/-! ## The tick as a map over the body list -/

section TickAsMap

variable {K : Type} [Field K]

/-- A body exerts no force on a body at the same position: the separation is
`(0,0,0)`, and so is the unit direction and its multiple. -/
theorem force_same_position (sqrt : K → K) (a b : CelestialBody K)
    (h : a.position = b.position) :
    calculateGravitationalForce sqrt a b = Vector3.zero := by
  simp only [calculateGravitationalForce, h, Vector3.sub_def, Vector3.div_def,
    Vector3.mul_def, Vector3.zero, sub_self, zero_div, zero_mul]

/-- Leaving out a summand that is `(0,0,0)` does not change a sum. -/
theorem sumFrom_map_eraseIdx {α : Type} (g : α → Vector3 K) (l : List α) (i : Nat) (b : α)
    (init : Vector3 K) (hb : l[i]? = some b) (hz : g b = Vector3.zero) :
    Vector3.sumFrom init ((l.eraseIdx i).map g) = Vector3.sumFrom init (l.map g) := by
  induction l generalizing i init with
  | nil => simp at hb
  | cons a t ih =>
    cases i with
    | zero =>
      have hab : a = b := by simpa using hb
      subst hab
      simp only [List.eraseIdx_cons_zero, List.map_cons, Vector3.sumFrom, List.foldl_cons, hz,
        Vector3.add_zero_vec]
    | succ k =>
      have hk : t[k]? = some b := by simpa using hb
      simp only [List.eraseIdx_cons_succ, List.map_cons, Vector3.sumFrom, List.foldl_cons]
      exact ih k (init + g a) hk

/-- The force array as a map: the entry of a body is the sum of the forces from
all bodies of the list, its own (zero) contribution included. -/
theorem accumulateForces_eq_map (sqrt : K → K) (bodies : List (CelestialBody K)) :
    accumulateForces sqrt bodies
      = bodies.map (fun b =>
          Vector3.sumFrom Vector3.zero (bodies.map (calculateGravitationalForce sqrt b))) := by
  have h := accumulateForcesWith_closed (calculateGravitationalForce sqrt) bodies
  apply List.ext_getElem?
  intro i
  by_cases hi : i < bodies.length
  · rw [List.getElem?_map, List.getElem?_eq_getElem hi, Option.map_some']
    have h2 : (accumulateForces sqrt bodies)[i]? = _ := h.2 i hi
    rw [h2]
    congr 1
    exact sumFrom_map_eraseIdx _ bodies i bodies[i] Vector3.zero
      (List.getElem?_eq_getElem hi) (force_same_position sqrt _ _ rfl)
  · have h1 : (accumulateForces sqrt bodies).length ≤ i := by
      have : (accumulateForces sqrt bodies).length = bodies.length := h.1
      omega
    rw [List.getElem?_eq_none h1, List.getElem?_eq_none (by simpa using hi)]

/-- One tick as a map: every body is advanced with the sum of the forces from
all bodies of the list before the tick. -/
theorem tick_eq_map (sqrt : K → K) (bodies : List (CelestialBody K)) :
    tick sqrt bodies
      = bodies.map (fun b =>
          integrateBody
            (Vector3.sumFrom Vector3.zero (bodies.map (calculateGravitationalForce sqrt b)))
            b) := by
  have h := tick_closed sqrt bodies
  have hF := accumulateForcesWith_closed (calculateGravitationalForce sqrt) bodies
  apply List.ext_getElem?
  intro i
  by_cases hi : i < bodies.length
  · rw [List.getElem?_map, List.getElem?_eq_getElem hi, Option.map_some', h.2 i hi]
    congr 2
    exact sumFrom_map_eraseIdx _ bodies i bodies[i] Vector3.zero
      (List.getElem?_eq_getElem hi) (force_same_position sqrt _ _ rfl)
  · rw [List.getElem?_eq_none (by rw [h.1]; omega),
      List.getElem?_eq_none (by simpa using hi)]

/-- Components of a sum of vectors. -/
theorem sumFrom_components (init : Vector3 K) (l : List (Vector3 K)) :
    (Vector3.sumFrom init l).x = init.x + (l.map (fun v => v.x)).sum
      ∧ (Vector3.sumFrom init l).y = init.y + (l.map (fun v => v.y)).sum
      ∧ (Vector3.sumFrom init l).z = init.z + (l.map (fun v => v.z)).sum := by
  induction l generalizing init with
  | nil => simp [Vector3.sumFrom]
  | cons a t ih =>
    have h := ih (init + a)
    have hstep : Vector3.sumFrom init (a :: t) = Vector3.sumFrom (init + a) t := rfl
    have hx : (init + a).x = init.x + a.x := rfl
    have hy : (init + a).y = init.y + a.y := rfl
    have hz : (init + a).z = init.z + a.z := rfl
    rw [hstep, h.1, h.2.1, h.2.2, hx, hy, hz]
    simp only [List.map_cons, List.sum_cons]
    refine ⟨by ring, by ring, by ring⟩

end TickAsMap

/-! ## Order independence -/

section OrderIndependence

variable {K : Type} [Field K]

/-- A sum of vectors does not depend on the order of the summands. -/
theorem sumFrom_perm (init : Vector3 K) (l₁ l₂ : List (Vector3 K)) (h : l₁.Perm l₂) :
    Vector3.sumFrom init l₁ = Vector3.sumFrom init l₂ := by
  unfold Vector3.sumFrom
  apply List.Perm.foldl_eq' h
  intro x _ y _ z
  show z + x + y = z + y + x
  rw [Vector3.add_assoc_vec, Vector3.add_comm_vec x y, ← Vector3.add_assoc_vec]

/-- C11 (order independence): the net force accumulated on body `i` equals the
sum of the pair forces taken over any reordering of the other bodies, and
permuting the body list permutes the list of (body, net force) pairs, that is,
the net forces follow their bodies under the same permutation. -/
theorem net_force_order_independent (sqrt : K → K) (bodies : List (CelestialBody K)) :
    (∀ (i : Nat) (h : i < bodies.length) (others : List (CelestialBody K)),
        others.Perm (bodies.eraseIdx i) →
        (accumulateForces sqrt bodies)[i]?
          = some (Vector3.sumFrom ⟨0, 0, 0⟩
              (others.map (calculateGravitationalForce sqrt bodies[i]))))
      ∧ (∀ bodies' : List (CelestialBody K), bodies.Perm bodies' →
          (bodies.zip (accumulateForces sqrt bodies)).Perm
            (bodies'.zip (accumulateForces sqrt bodies'))) := by
  constructor
  · intro i h others hp
    have hc : (accumulateForces sqrt bodies)[i]? = _ :=
      (accumulateForcesWith_closed (calculateGravitationalForce sqrt) bodies).2 i h
    rw [hc]
    congr 1
    exact (sumFrom_perm _ _ _ (hp.map _)).symm
  · intro bodies' hp
    have hzip : ∀ l : List (CelestialBody K),
        l.zip (accumulateForces sqrt l)
          = l.map (fun b => (b, Vector3.sumFrom Vector3.zero
              (l.map (calculateGravitationalForce sqrt b)))) := by
      intro l
      rw [accumulateForces_eq_map]
      have := List.zip_map' (fun b : CelestialBody K => b)
        (fun b => Vector3.sumFrom Vector3.zero (l.map (calculateGravitationalForce sqrt b))) l
      simpa using this
    rw [hzip bodies, hzip bodies']
    have hfun : (fun b : CelestialBody K => (b, Vector3.sumFrom Vector3.zero
          (bodies.map (calculateGravitationalForce sqrt b))))
        = (fun b => (b, Vector3.sumFrom Vector3.zero
          (bodies'.map (calculateGravitationalForce sqrt b)))) := by
      funext b
      rw [sumFrom_perm _ _ _ (hp.map (calculateGravitationalForce sqrt b))]
    rw [hfun]
    exact hp.map _

/-- Witness for C11: three bodies, the others of the first one taken in reverse
order, and the list with its first two bodies swapped. -/
theorem net_force_order_independent_witness :
    (accumulateForces Real.sqrt
        [pointMass 1 ⟨0, 0, 0⟩ ⟨0, 0, 0⟩, pointMass 2 ⟨3, 4, 0⟩ ⟨0, 0, 0⟩,
          pointMass 3 ⟨0, 0, 7⟩ ⟨0, 0, 0⟩])[0]?
        = some (Vector3.sumFrom ⟨0, 0, 0⟩
            ([pointMass 3 ⟨0, 0, 7⟩ ⟨0, 0, 0⟩, pointMass 2 ⟨3, 4, 0⟩ ⟨0, 0, 0⟩].map
              (calculateGravitationalForce Real.sqrt
                (pointMass (1 : ℝ) ⟨0, 0, 0⟩ ⟨0, 0, 0⟩))))
      ∧ ([pointMass 1 ⟨0, 0, 0⟩ ⟨0, 0, 0⟩, pointMass 2 ⟨3, 4, 0⟩ ⟨0, 0, 0⟩,
            pointMass (3 : ℝ) ⟨0, 0, 7⟩ ⟨0, 0, 0⟩].zip
          (accumulateForces Real.sqrt
            [pointMass 1 ⟨0, 0, 0⟩ ⟨0, 0, 0⟩, pointMass 2 ⟨3, 4, 0⟩ ⟨0, 0, 0⟩,
              pointMass 3 ⟨0, 0, 7⟩ ⟨0, 0, 0⟩])).Perm
          ([pointMass 2 ⟨3, 4, 0⟩ ⟨0, 0, 0⟩, pointMass 1 ⟨0, 0, 0⟩ ⟨0, 0, 0⟩,
            pointMass (3 : ℝ) ⟨0, 0, 7⟩ ⟨0, 0, 0⟩].zip
          (accumulateForces Real.sqrt
            [pointMass 2 ⟨3, 4, 0⟩ ⟨0, 0, 0⟩, pointMass 1 ⟨0, 0, 0⟩ ⟨0, 0, 0⟩,
              pointMass 3 ⟨0, 0, 7⟩ ⟨0, 0, 0⟩])) :=
  have h := net_force_order_independent Real.sqrt
    [pointMass 1 ⟨0, 0, 0⟩ ⟨0, 0, 0⟩, pointMass 2 ⟨3, 4, 0⟩ ⟨0, 0, 0⟩,
      pointMass 3 ⟨0, 0, 7⟩ ⟨0, 0, 0⟩]
  ⟨h.1 0 (by simp) _ (List.Perm.swap _ _ []), h.2 _ (List.Perm.swap _ _ _)⟩

end OrderIndependence

/-! ## What a tick leaves alone -/

section Frame

/-- The integrator keeps the name, the mass and every attribute of the shape
other than its screen position. -/
theorem integrateBody_frame {K : Type} [Field K] (F : Vector3 K) (b : CelestialBody K) :
    (integrateBody F b).name = b.name ∧ (integrateBody F b).mass = b.mass
      ∧ (integrateBody F b).shape.radius = b.shape.radius
      ∧ (integrateBody F b).shape.fillColor = b.shape.fillColor
      ∧ (integrateBody F b).shape.originX = b.shape.originX
      ∧ (integrateBody F b).shape.originY = b.shape.originY := by
  refine ⟨rfl, rfl, ?_, ?_, ?_, ?_⟩ <;>
    · simp only [integrateBody, CircleShape.setPosition]
      split <;> rfl

/-- Names, masses and fixed shape attributes, in list order, after one tick. -/
theorem tick_frame {K : Type} [Field K] (sqrt : K → K) (bodies : List (CelestialBody K)) :
    (tick sqrt bodies).map
        (fun b => (b.name, b.mass, b.shape.radius, b.shape.fillColor, b.shape.originX,
          b.shape.originY))
      = bodies.map
        (fun b => (b.name, b.mass, b.shape.radius, b.shape.fillColor, b.shape.originX,
          b.shape.originY)) := by
  rw [tick_eq_map, List.map_map]
  apply List.map_congr_left
  intro b _
  obtain ⟨h1, h2, h3, h4, h5, h6⟩ := integrateBody_frame
    (Vector3.sumFrom Vector3.zero (bodies.map (calculateGravitationalForce sqrt b))) b
  simp only [Function.comp_apply, h1, h2, h3, h4, h5, h6]

/-- Names, masses and fixed shape attributes, in list order, after `n` ticks. -/
theorem simulate_frame {K : Type} [Field K] (sqrt : K → K) (n : Nat)
    (bodies : List (CelestialBody K)) :
    (simulate sqrt n bodies).map
        (fun b => (b.name, b.mass, b.shape.radius, b.shape.fillColor, b.shape.originX,
          b.shape.originY))
      = bodies.map
        (fun b => (b.name, b.mass, b.shape.radius, b.shape.fillColor, b.shape.originX,
          b.shape.originY)) := by
  induction n generalizing bodies with
  | zero => rfl
  | succ n ih =>
    show (simulate sqrt n (tick sqrt bodies)).map _ = _
    rw [ih (tick sqrt bodies), tick_frame]

/-- C12: a tick keeps the number and order of the bodies and the name and mass
of each (and the radius, colour and origin of its shape); only velocity,
position and screen position are left free.  The same holds after `n` ticks,
so masses that are all positive before stay positive. -/
theorem tick_keeps_masses (bodies : List (CelestialBody ℝ)) :
    (tick Real.sqrt bodies).length = bodies.length
      ∧ (tick Real.sqrt bodies).map
          (fun b => (b.name, b.mass, b.shape.radius, b.shape.fillColor, b.shape.originX,
            b.shape.originY))
        = bodies.map
          (fun b => (b.name, b.mass, b.shape.radius, b.shape.fillColor, b.shape.originX,
            b.shape.originY))
      ∧ (∀ n : Nat,
          (simulate Real.sqrt n bodies).length = bodies.length
            ∧ (simulate Real.sqrt n bodies).map (fun b => (b.name, b.mass))
              = bodies.map (fun b => (b.name, b.mass)))
      ∧ ((∀ b ∈ bodies, 0 < b.mass) →
          ∀ n : Nat, ∀ c ∈ simulate Real.sqrt n bodies, 0 < c.mass) := by
  have hproj : ∀ n : Nat, (simulate Real.sqrt n bodies).map (fun b => (b.name, b.mass))
      = bodies.map (fun b => (b.name, b.mass)) := by
    intro n
    have h := congrArg (List.map (fun t : String × ℝ × ℝ × Color × ℝ × ℝ => (t.1, t.2.1)))
      (simulate_frame Real.sqrt n bodies)
    simpa only [List.map_map, Function.comp_def] using h
  refine ⟨(tick_closed Real.sqrt bodies).1, tick_frame Real.sqrt bodies, ?_, ?_⟩
  · intro n
    refine ⟨?_, hproj n⟩
    have h := congrArg List.length (hproj n)
    simpa only [List.length_map] using h
  · intro hpos n c hc
    have hmass : (simulate Real.sqrt n bodies).map (fun b => b.mass)
        = bodies.map (fun b => b.mass) := by
      have h := congrArg (List.map (fun t : String × ℝ => t.2)) (hproj n)
      simpa only [List.map_map, Function.comp_def] using h
    have hmem : c.mass ∈ bodies.map (fun b => b.mass) := by
      rw [← hmass]
      exact List.mem_map_of_mem (fun b => b.mass) hc
    obtain ⟨b, hb, hbm⟩ := List.mem_map.mp hmem
    rw [← hbm]
    exact hpos b hb

/-- Witness for C12: the initial Sun and Earth after five ticks. -/
theorem tick_keeps_masses_witness :
    (simulate Real.sqrt 5 (initialBodies : List (CelestialBody ℝ))).length
        = (initialBodies : List (CelestialBody ℝ)).length
      ∧ ∀ c ∈ simulate Real.sqrt 5 (initialBodies : List (CelestialBody ℝ)), 0 < c.mass :=
  ⟨((tick_keeps_masses initialBodies).2.2.1 5).1, (tick_keeps_masses initialBodies).2.2.2
    (by
      intro b hb
      simp only [initialBodies, List.mem_cons, List.mem_singleton, List.not_mem_nil,
        or_false] at hb
      rcases hb with h | h
      · rw [h]; simp only [sun]; norm_num
      · rw [h]; simp only [earth]; norm_num)
    5⟩

end Frame

/-! ## Names and shapes play no part in the physics -/

section NamesAndShapes

variable {K : Type} [Field K]

/-- The pair force reads only the masses and the positions of the two bodies. -/
theorem force_congr (sqrt : K → K) (a a' b b' : CelestialBody K)
    (ham : a.mass = a'.mass) (hap : a.position = a'.position)
    (hbm : b.mass = b'.mass) (hbp : b.position = b'.position) :
    calculateGravitationalForce sqrt a b = calculateGravitationalForce sqrt a' b' := by
  simp only [calculateGravitationalForce, ham, hap, hbm, hbp]

/-- The force summed over a list reads only masses and positions. -/
theorem force_sum_congr (sqrt : K → K) (a a' : CelestialBody K)
    (l l' : List (CelestialBody K))
    (ham : a.mass = a'.mass) (hap : a.position = a'.position)
    (h : List.Forall₂ (fun b b' => b.mass = b'.mass ∧ b.position = b'.position
      ∧ b.velocity = b'.velocity) l l') :
    Vector3.sumFrom Vector3.zero (l.map (calculateGravitationalForce sqrt a))
      = Vector3.sumFrom Vector3.zero (l'.map (calculateGravitationalForce sqrt a')) := by
  have hmap : l.map (calculateGravitationalForce sqrt a)
      = l'.map (calculateGravitationalForce sqrt a') := by
    induction h with
    | nil => rfl
    | cons hbb _ ih =>
      simp only [List.map_cons, ih, force_congr sqrt a a' _ _ ham hap hbb.1 hbb.2.1]
  rw [hmap]

/-- C13: two body lists that agree, index by index, on mass, position and
velocity (and may differ in names and shapes, also in which body is named "Sun")
agree on mass, position and velocity after one tick; and a body named "Sun" gets
the same velocity and position update as any other body. -/
theorem physics_ignores_names (sqrt : K → K) (bodies bodies' : List (CelestialBody K))
    (h : List.Forall₂ (fun b b' => b.mass = b'.mass ∧ b.position = b'.position
      ∧ b.velocity = b'.velocity) bodies bodies') :
    List.Forall₂ (fun b b' => b.mass = b'.mass ∧ b.position = b'.position
        ∧ b.velocity = b'.velocity) (tick sqrt bodies) (tick sqrt bodies')
      ∧ ∀ (i : Nat) (b : CelestialBody K), bodies[i]? = some b → b.name = "Sun" →
          ∃ c : CelestialBody K, (tick sqrt bodies)[i]? = some c
            ∧ c.velocity = b.velocity + (netForce sqrt bodies i b / b.mass) * TIME_STEP K
            ∧ c.position = b.position + c.velocity * TIME_STEP K := by
  constructor
  · rw [tick_eq_map, tick_eq_map, List.forall₂_map_left_iff, List.forall₂_map_right_iff]
    refine List.Forall₂.imp ?_ h
    intro a a' haa
    rw [force_sum_congr sqrt a a' bodies bodies' haa.1 haa.2.1 h]
    simp only [integrateBody_mass, integrateBody_velocity, integrateBody_position, haa.1,
      haa.2.1, haa.2.2, and_self]
  · intro i b hb _
    obtain ⟨hi, hbi⟩ := List.getElem?_eq_some.mp hb
    refine ⟨integrateBody (netForce sqrt bodies i b) b, ?_, rfl, rfl⟩
    rw [(tick_closed sqrt bodies).2 i hi, hbi]

/-- Witness for C13: the initial Sun and Earth against two bodies with the same
masses, positions and velocities but other names and shapes; and the update of
the body named "Sun". -/
theorem physics_ignores_names_witness :
    List.Forall₂ (fun b b' => b.mass = b'.mass ∧ b.position = b'.position
        ∧ b.velocity = b'.velocity)
        (tick Real.sqrt (initialBodies : List (CelestialBody ℝ)))
        (tick Real.sqrt
          [⟨"Star", 1.989e30, ⟨0, 0, 0⟩, ⟨0, 0, 0⟩, CircleShape.ofRadius 3⟩,
            ⟨"Sun", 5.972e24, ⟨1.496e11, 0, 0⟩, ⟨0, 29780, 0⟩, CircleShape.ofRadius 4⟩])
      ∧ ∃ c : CelestialBody ℝ,
          (tick Real.sqrt (initialBodies : List (CelestialBody ℝ)))[0]? = some c
            ∧ c.velocity = (sun : CelestialBody ℝ).velocity
                + (netForce Real.sqrt initialBodies 0 sun / (sun : CelestialBody ℝ).mass)
                  * TIME_STEP ℝ
            ∧ c.position = (sun : CelestialBody ℝ).position + c.velocity * TIME_STEP ℝ :=
  have h := physics_ignores_names Real.sqrt (initialBodies : List (CelestialBody ℝ))
    [⟨"Star", 1.989e30, ⟨0, 0, 0⟩, ⟨0, 0, 0⟩, CircleShape.ofRadius 3⟩,
      ⟨"Sun", 5.972e24, ⟨1.496e11, 0, 0⟩, ⟨0, 29780, 0⟩, CircleShape.ofRadius 4⟩]
    (List.Forall₂.cons ⟨rfl, rfl, rfl⟩ (List.Forall₂.cons ⟨rfl, rfl, rfl⟩ List.Forall₂.nil))
  ⟨h.1, h.2 0 sun rfl rfl⟩

end NamesAndShapes

/-! ## No division by zero -/

section Safety

/-- A loop in `Option` whose every step succeeds with the value of the plain
step, on the states that satisfy an invariant. -/
theorem foldlM_eq_some_foldl {σ : Type} (stepC : σ → Nat → Option σ) (step : σ → Nat → σ)
    (Inv : σ → Prop) (js : List Nat)
    (hstep : ∀ s : σ, Inv s → ∀ j ∈ js, stepC s j = some (step s j) ∧ Inv (step s j))
    (s : σ) (hs : Inv s) :
    js.foldlM stepC s = some (js.foldl step s) ∧ Inv (js.foldl step s) := by
  induction js generalizing s with
  | nil => exact ⟨rfl, hs⟩
  | cons j t ih =>
    obtain ⟨h1, h2⟩ := hstep s hs j (List.mem_cons_self j t)
    have ht := ih (fun s' hs' j' hj' => hstep s' hs' j' (List.mem_cons_of_mem j hj'))
      (step s j) h2
    rw [List.foldlM_cons, h1, List.foldl_cons]
    exact ht

/-- The guarded component-wise division succeeds on a non-zero divisor. -/
theorem divChecked_eq_some (u : Vector3 ℝ) (c : ℝ) (hc : c ≠ 0) :
    u.divChecked c = some (u / c) := by
  simp only [Vector3.divChecked, checkedDiv, hc, if_false, Vector3.div_def]
  rfl

/-- The guarded force succeeds when the two positions differ. -/
theorem forceChecked_eq_some (a b : CelestialBody ℝ) (hne : a.position ≠ b.position) :
    calculateGravitationalForceChecked Real.sqrt a b
      = some (calculateGravitationalForce Real.sqrt a b) := by
  have hd : 0 < Vector3.norm Real.sqrt (b.position - a.position) :=
    norm_pos_of_ne a.position b.position hne
  have hd0 : Vector3.norm Real.sqrt (b.position - a.position) ≠ 0 := ne_of_gt hd
  have hdd : Vector3.norm Real.sqrt (b.position - a.position)
      * Vector3.norm Real.sqrt (b.position - a.position) ≠ 0 := mul_ne_zero hd0 hd0
  simp only [Vector3.norm] at hd0 hdd
  simp only [calculateGravitationalForceChecked, calculateGravitationalForce, checkedDiv, hdd,
    if_false, divChecked_eq_some _ _ hd0]
  rfl

/-- The guarded integration of one body succeeds when its mass is not zero. -/
theorem integrateBodyChecked_eq_some (F : Vector3 ℝ) (b : CelestialBody ℝ)
    (hm : b.mass ≠ 0) :
    integrateBodyChecked F b = some (integrateBody F b) := by
  simp only [integrateBodyChecked, integrateBody, divChecked_eq_some _ _ hm]
  rfl

/-- Bodies at different indices of a list with pairwise distinct positions are
at different positions. -/
theorem position_ne_of_nodup (bodies : List (CelestialBody ℝ))
    (hpos : (bodies.map (fun b => b.position)).Nodup) (i j : Nat) (a b : CelestialBody ℝ)
    (ha : bodies[i]? = some a) (hb : bodies[j]? = some b) (hij : i ≠ j) :
    a.position ≠ b.position := by
  obtain ⟨hi, hai⟩ := List.getElem?_eq_some.mp ha
  obtain ⟨hj, hbj⟩ := List.getElem?_eq_some.mp hb
  intro heq
  apply hij
  have hi' : i < (bodies.map (fun b => b.position)).length := by simpa using hi
  have hj' : j < (bodies.map (fun b => b.position)).length := by simpa using hj
  have h : (bodies.map (fun b => b.position))[i] = (bodies.map (fun b => b.position))[j] := by
    simp only [List.getElem_map, hai, hbj, heq]
  exact (List.Nodup.getElem_inj_iff hpos).mp h

/-- The guarded force accumulation succeeds with the force array of the program
when the positions are pairwise distinct. -/
theorem accumulateForcesChecked_eq_some (bodies : List (CelestialBody ℝ))
    (hpos : (bodies.map (fun b => b.position)).Nodup) :
    accumulateForcesChecked Real.sqrt bodies = some (accumulateForces Real.sqrt bodies) := by
  have hstep : ∀ (i : Nat) (fs : List (Vector3 ℝ)) (j : Nat),
      accumulateStepChecked Real.sqrt bodies i fs j
        = some (accumulateStep (calculateGravitationalForce Real.sqrt) bodies i fs j) := by
    intro i fs j
    unfold accumulateStepChecked accumulateStep
    by_cases hij : i = j
    · simp only [hij, ne_eq, not_true_eq_false, if_false]
      rfl
    · simp only [ne_eq, hij, not_false_eq_true, if_true]
      cases hf : fs[i]? with
      | none => rfl
      | some f =>
        cases hbi : bodies[i]? with
        | none => rfl
        | some bi =>
          cases hbj : bodies[j]? with
          | none => rfl
          | some bj =>
            simp only [forceChecked_eq_some bi bj
              (position_ne_of_nodup bodies hpos i j bi bj hbi hbj hij)]
            rfl
  have hrow : ∀ (fs : List (Vector3 ℝ)) (i : Nat),
      accumulateRowChecked Real.sqrt bodies fs i
        = some (accumulateRow (calculateGravitationalForce Real.sqrt) bodies fs i) := by
    intro fs i
    exact (foldlM_eq_some_foldl (accumulateStepChecked Real.sqrt bodies i)
      (accumulateStep (calculateGravitationalForce Real.sqrt) bodies i) (fun _ => True)
      (List.range bodies.length) (fun s _ j _ => ⟨hstep i s j, trivial⟩) fs trivial).1
  exact (foldlM_eq_some_foldl (accumulateRowChecked Real.sqrt bodies)
    (accumulateRow (calculateGravitationalForce Real.sqrt) bodies) (fun _ => True)
    (List.range bodies.length) (fun s _ i _ => ⟨hrow s i, trivial⟩) _ trivial).1

/-- The guarded integration loop succeeds with the result of the program's loop
when no mass is zero. -/
theorem integrateChecked_eq_some (forces : List (Vector3 ℝ)) (bodies : List (CelestialBody ℝ))
    (hmass : ∀ b ∈ bodies, b.mass ≠ 0) :
    integrateChecked forces bodies = some (integrate forces bodies) := by
  refine (foldlM_eq_some_foldl (integrateStepChecked forces) (integrateStep forces)
    (fun s => ∀ b ∈ s, b.mass ≠ 0) (List.range bodies.length) ?_ bodies hmass).1
  intro s hs i _
  unfold integrateStepChecked integrateStep
  cases hf : forces[i]? with
  | none => exact ⟨rfl, hs⟩
  | some f =>
    cases hb : s[i]? with
    | none => exact ⟨rfl, hs⟩
    | some b =>
      have hbmem : b ∈ s := by
        obtain ⟨hi, hbi⟩ := List.getElem?_eq_some.mp hb
        rw [← hbi]
        exact List.getElem_mem hi
      have hbm : b.mass ≠ 0 := hs b hbmem
      refine ⟨?_, ?_⟩
      · simp only [integrateBodyChecked_eq_some f b hbm]
        rfl
      · intro c hc
        rcases List.mem_or_eq_of_mem_set hc with h | h
        · exact hs c h
        · rw [h, integrateBody_mass]
          exact hbm

/-- C14: when the positions are pairwise distinct and all masses are positive,
every divisor met in one tick is non-zero: the distance of two bodies at
different indices and its square are positive, every mass is non-zero, and the
tick with guarded division returns the result of the tick, never `none`. -/
theorem tick_divisions_safe (bodies : List (CelestialBody ℝ))
    (hpos : (bodies.map (fun b => b.position)).Nodup)
    (hmass : ∀ b ∈ bodies, 0 < b.mass) :
    (∀ (i j : Nat) (a b : CelestialBody ℝ), bodies[i]? = some a → bodies[j]? = some b →
        i ≠ j →
        0 < Vector3.norm Real.sqrt (b.position - a.position)
          ∧ 0 < Vector3.norm Real.sqrt (b.position - a.position)
              * Vector3.norm Real.sqrt (b.position - a.position))
      ∧ (∀ b ∈ bodies, b.mass ≠ 0)
      ∧ tickChecked Real.sqrt bodies = some (tick Real.sqrt bodies) := by
  refine ⟨?_, fun b hb => ne_of_gt (hmass b hb), ?_⟩
  · intro i j a b ha hb hij
    have hd := norm_pos_of_ne a.position b.position
      (position_ne_of_nodup bodies hpos i j a b ha hb hij)
    exact ⟨hd, mul_pos hd hd⟩
  · unfold tickChecked tick
    rw [accumulateForcesChecked_eq_some bodies hpos]
    exact integrateChecked_eq_some _ bodies (fun b hb => ne_of_gt (hmass b hb))

/-- Witness for C14: the initial Sun and Earth. -/
theorem tick_divisions_safe_witness :
    tickChecked Real.sqrt (initialBodies : List (CelestialBody ℝ))
      = some (tick Real.sqrt initialBodies) :=
  (tick_divisions_safe initialBodies
    (by
      simp only [initialBodies, sun, earth, List.map_cons, List.map_nil, List.nodup_cons,
        List.mem_singleton, List.not_mem_nil, not_false_eq_true, List.nodup_nil, and_true,
        Vector3.mk.injEq]
      norm_num)
    (by
      intro b hb
      simp only [initialBodies, List.mem_cons, List.mem_singleton, List.not_mem_nil,
        or_false] at hb
      rcases hb with h | h
      · rw [h]; simp only [sun]; norm_num
      · rw [h]; simp only [earth]; norm_num)).2.2

end Safety

/-! ## Display mapping -/

section Display

/-- Half the window width and height, computed in integers, and the scale. -/
theorem display_constants :
    ((WINDOW_WIDTH / 2 : Int) : ℝ) = 400 ∧ ((WINDOW_HEIGHT / 2 : Int) : ℝ) = 400
      ∧ SCALE ℝ = 1 / 10 ^ 9 := by
  refine ⟨?_, ?_, ?_⟩
  · have h : (WINDOW_WIDTH / 2 : Int) = 400 := by decide
    rw [h]
    norm_num
  · have h : (WINDOW_HEIGHT / 2 : Int) = 400 := by decide
    rw [h]
    norm_num
  · unfold SCALE
    norm_num

/-- The shape written by the integrator, by the name of the body. -/
theorem integrateBody_shape (F : Vector3 ℝ) (b : CelestialBody ℝ) :
    (b.name ≠ "Sun" →
        (integrateBody F b).shape.screenX
            = ((WINDOW_WIDTH / 2 : Int) : ℝ) + (integrateBody F b).position.x * SCALE ℝ
          ∧ (integrateBody F b).shape.screenY
            = ((WINDOW_HEIGHT / 2 : Int) : ℝ) + (integrateBody F b).position.y * SCALE ℝ)
      ∧ (b.name = "Sun" → (integrateBody F b).shape = b.shape) := by
  constructor
  · intro hn
    simp only [integrateBody, hn, ne_eq, not_false_eq_true, if_true,
      CircleShape.setPosition, and_self]
  · intro hn
    simp only [integrateBody, hn, ne_eq, not_true_eq_false, if_false]

/-- C15 (display mapping): after one tick the shape of a body not named "Sun" is
at `(WINDOW_WIDTH/2 + x * SCALE, WINDOW_HEIGHT/2 + y * SCALE)`, which is
`(400 + x * 1e-9, 400 + y * 1e-9)`, for `(x, y)` the body's position after this
tick; the shape of a body named "Sun" is the one from before the tick. -/
theorem display_mapping (bodies : List (CelestialBody ℝ)) (i : Nat) (b : CelestialBody ℝ)
    (hb : bodies[i]? = some b) :
    ∃ c : CelestialBody ℝ,
      (tick Real.sqrt bodies)[i]? = some c
        ∧ c.name = b.name
        ∧ (b.name ≠ "Sun" →
            c.shape.screenX = ((WINDOW_WIDTH / 2 : Int) : ℝ) + c.position.x * SCALE ℝ
              ∧ c.shape.screenY = ((WINDOW_HEIGHT / 2 : Int) : ℝ) + c.position.y * SCALE ℝ
              ∧ c.shape.screenX = 400 + c.position.x * (1 / 10 ^ 9)
              ∧ c.shape.screenY = 400 + c.position.y * (1 / 10 ^ 9))
        ∧ (b.name = "Sun" →
            c.shape = b.shape ∧ c.shape.screenX = b.shape.screenX
              ∧ c.shape.screenY = b.shape.screenY) := by
  obtain ⟨hi, hbi⟩ := List.getElem?_eq_some.mp hb
  refine ⟨integrateBody (netForce Real.sqrt bodies i b) b, ?_, rfl, ?_, ?_⟩
  · rw [(tick_closed Real.sqrt bodies).2 i hi, hbi]
  · intro hn
    obtain ⟨hx, hy⟩ := (integrateBody_shape (netForce Real.sqrt bodies i b) b).1 hn
    refine ⟨hx, hy, ?_, ?_⟩
    · rw [hx, display_constants.1, display_constants.2.2]
    · rw [hy, display_constants.2.1, display_constants.2.2]
  · intro hn
    have h := (integrateBody_shape (netForce Real.sqrt bodies i b) b).2 hn
    exact ⟨h, by rw [h], by rw [h]⟩

/-- Witness for C15: Earth, the second of the initial bodies, is drawn at the
image of its new position. -/
theorem display_mapping_witness :
    ∃ c : CelestialBody ℝ,
      (tick Real.sqrt (initialBodies : List (CelestialBody ℝ)))[1]? = some c
        ∧ c.shape.screenX = 400 + c.position.x * (1 / 10 ^ 9)
        ∧ c.shape.screenY = 400 + c.position.y * (1 / 10 ^ 9) :=
  (display_mapping initialBodies 1 earth rfl).imp
    (fun _ h => ⟨h.1, (h.2.2.1 (by decide)).2.2.1, (h.2.2.1 (by decide)).2.2.2⟩)

end Display

/-! ## Momentum of any number of bodies -/

section MomentumAll

/-- A double sum of an antisymmetric function over a list vanishes. -/
theorem double_sum_antisymm {α : Type} (g : α → α → ℝ) (hg : ∀ a b, g a b + g b a = 0)
    (l : List α) :
    (l.map (fun a => (l.map (g a)).sum)).sum = 0 := by
  induction l with
  | nil => rfl
  | cons a t ih =>
    have hself : g a a = 0 := by
      have := hg a a
      linarith
    have hcross : (t.map (g a)).sum + (t.map (fun c => g c a)).sum = 0 := by
      rw [← List.sum_map_add]
      have : (fun b => g a b + g b a) = (fun _ : α => (0 : ℝ)) := by
        funext b
        exact hg a b
      rw [this]
      simp
    have hsplit : (t.map (fun c => (List.map (g c) (a :: t)).sum)).sum
        = (t.map (fun c => g c a)).sum + (t.map (fun c => (t.map (g c)).sum)).sum := by
      rw [← List.sum_map_add]
      simp only [List.map_cons, List.sum_cons]
    rw [List.map_cons, List.sum_cons, hsplit, ih]
    simp only [List.map_cons, List.sum_cons, hself]
    linarith

/-- A component of a sum of vectors is the sum of the components, for every
additive component function. -/
theorem sumFrom_proj (π : Vector3 ℝ → ℝ) (hadd : ∀ u v, π (u + v) = π u + π v)
    (init : Vector3 ℝ) (l : List (Vector3 ℝ)) :
    π (Vector3.sumFrom init l) = π init + (l.map π).sum := by
  induction l generalizing init with
  | nil => simp [Vector3.sumFrom]
  | cons a t ih =>
    have hstep : Vector3.sumFrom init (a :: t) = Vector3.sumFrom (init + a) t := rfl
    rw [hstep, ih, hadd, List.map_cons, List.sum_cons]
    ring

/-- One component of the two statements about momentum: the net forces sum to
zero and the momentum is unchanged by a tick, when no mass is zero. -/
theorem momentum_component (π : Vector3 ℝ → ℝ) (hadd : ∀ u v, π (u + v) = π u + π v)
    (hmul : ∀ (u : Vector3 ℝ) (c : ℝ), π (u * c) = π u * c)
    (hdiv : ∀ (u : Vector3 ℝ) (c : ℝ), π (u / c) = π u / c)
    (hzero : π Vector3.zero = 0)
    (bodies : List (CelestialBody ℝ)) (hmass : ∀ b ∈ bodies, b.mass ≠ 0) :
    π (Vector3.sumFrom Vector3.zero (accumulateForces Real.sqrt bodies)) = 0
      ∧ π (totalMomentum (tick Real.sqrt bodies)) = π (totalMomentum bodies) := by
  have hanti : ∀ a b : CelestialBody ℝ,
      π (calculateGravitationalForce Real.sqrt a b)
        + π (calculateGravitationalForce Real.sqrt b a) = 0 := by
    intro a b
    rw [← hadd, force_add_swap, hzero]
  have hS : ∀ b : CelestialBody ℝ,
      π (Vector3.sumFrom Vector3.zero (bodies.map (calculateGravitationalForce Real.sqrt b)))
        = (bodies.map (fun c => π (calculateGravitationalForce Real.sqrt b c))).sum := by
    intro b
    rw [sumFrom_proj π hadd, hzero, List.map_map, zero_add]
    rfl
  have hforces : (bodies.map (fun b => π (Vector3.sumFrom Vector3.zero
      (bodies.map (calculateGravitationalForce Real.sqrt b))))).sum = 0 := by
    have h := double_sum_antisymm
      (fun a b : CelestialBody ℝ => π (calculateGravitationalForce Real.sqrt a b)) hanti bodies
    rw [← h]
    congr 1
    apply List.map_congr_left
    intro b _
    exact hS b
  constructor
  · rw [accumulateForces_eq_map, sumFrom_proj π hadd, hzero, List.map_map, zero_add]
    exact hforces
  · unfold totalMomentum
    rw [tick_eq_map, sumFrom_proj π hadd, sumFrom_proj π hadd, List.map_map, List.map_map,
      List.map_map]
    congr 1
    have hterm : List.map
        ((π ∘ fun b : CelestialBody ℝ => b.velocity * b.mass) ∘ fun b =>
          integrateBody (Vector3.sumFrom Vector3.zero
            (bodies.map (calculateGravitationalForce Real.sqrt b))) b) bodies
        = bodies.map (fun b => π (b.velocity * b.mass)
            + π (Vector3.sumFrom Vector3.zero
                (bodies.map (calculateGravitationalForce Real.sqrt b))) * TIME_STEP ℝ) := by
      apply List.map_congr_left
      intro b hb
      have hm := hmass b hb
      simp only [Function.comp_apply, integrateBody_velocity, integrateBody_mass, hmul, hadd,
        hdiv]
      field_simp
    rw [hterm, List.sum_map_add, List.sum_map_mul_right, hforces]
    simp only [zero_mul, add_zero, Function.comp_def]

/-- C16 (n-body momentum): for a body list of any length with positive masses
and pairwise distinct positions, the net forces of a tick sum to `(0,0,0)` and
the total momentum is the same after the tick as before. -/
theorem n_body_momentum_conserved (bodies : List (CelestialBody ℝ))
    (hmass : ∀ b ∈ bodies, 0 < b.mass)
    (_hpos : (bodies.map (fun b => b.position)).Nodup) :
    Vector3.sumFrom ⟨0, 0, 0⟩ (accumulateForces Real.sqrt bodies) = ⟨0, 0, 0⟩
      ∧ totalMomentum (tick Real.sqrt bodies) = totalMomentum bodies := by
  have hm : ∀ b ∈ bodies, b.mass ≠ 0 := fun b hb => ne_of_gt (hmass b hb)
  have hx := momentum_component (fun v => v.x) (fun _ _ => rfl) (fun _ _ => rfl)
    (fun _ _ => rfl) rfl bodies hm
  have hy := momentum_component (fun v => v.y) (fun _ _ => rfl) (fun _ _ => rfl)
    (fun _ _ => rfl) rfl bodies hm
  have hz := momentum_component (fun v => v.z) (fun _ _ => rfl) (fun _ _ => rfl)
    (fun _ _ => rfl) rfl bodies hm
  constructor
  · ext
    · exact hx.1
    · exact hy.1
    · exact hz.1
  · ext
    · exact hx.2
    · exact hy.2
    · exact hz.2

/-- Witness for C16: three bodies at distinct positions. -/
theorem n_body_momentum_conserved_witness :
    Vector3.sumFrom ⟨0, 0, 0⟩ (accumulateForces Real.sqrt
        [pointMass 1 ⟨0, 0, 0⟩ ⟨0, 1, 0⟩, pointMass 2 ⟨3, 4, 0⟩ ⟨1, 0, 0⟩,
          pointMass 3 ⟨0, 0, 7⟩ ⟨0, 0, 2⟩]) = ⟨0, 0, 0⟩
      ∧ totalMomentum (tick Real.sqrt
          [pointMass 1 ⟨0, 0, 0⟩ ⟨0, 1, 0⟩, pointMass 2 ⟨3, 4, 0⟩ ⟨1, 0, 0⟩,
            pointMass 3 ⟨0, 0, 7⟩ ⟨0, 0, 2⟩])
        = totalMomentum
          [pointMass 1 ⟨0, 0, 0⟩ ⟨0, 1, 0⟩, pointMass 2 ⟨3, 4, 0⟩ ⟨1, 0, 0⟩,
            pointMass (3 : ℝ) ⟨0, 0, 7⟩ ⟨0, 0, 2⟩] :=
  n_body_momentum_conserved
    [pointMass 1 ⟨0, 0, 0⟩ ⟨0, 1, 0⟩, pointMass 2 ⟨3, 4, 0⟩ ⟨1, 0, 0⟩,
      pointMass 3 ⟨0, 0, 7⟩ ⟨0, 0, 2⟩]
    (by
      intro b hb
      simp only [List.mem_cons, List.mem_singleton, List.not_mem_nil, or_false] at hb
      rcases hb with h | h | h <;> (rw [h]; simp only [pointMass]; norm_num))
    (by
      simp only [pointMass, List.map_cons, List.map_nil, List.nodup_cons, List.mem_cons,
        List.mem_singleton, List.not_mem_nil, not_false_eq_true, List.nodup_nil, and_true,
        Vector3.mk.injEq, or_false]
      norm_num)

end MomentumAll

/-! ## Translation invariance -/

section Translation

variable {K : Type} [Field K]

/-- The pair force reads the positions only through their difference. -/
theorem force_of_separation (sqrt : K → K) (a b a' b' : CelestialBody K)
    (hma : a.mass = a'.mass) (hmb : b.mass = b'.mass)
    (hsep : b.position - a.position = b'.position - a'.position) :
    calculateGravitationalForce sqrt a b = calculateGravitationalForce sqrt a' b' := by
  simp only [calculateGravitationalForce, hma, hmb, hsep]

/-- Moving both bodies by the same vector keeps their separation. -/
theorem translate_separation (t : Vector3 K) (a b : CelestialBody K) :
    (translate t b).position - (translate t a).position = b.position - a.position := by
  simp only [translate, Vector3.sub_def, Vector3.add_def]
  ext <;> simp only <;> ring

/-- C17 (translation invariance): moving every body by the same vector `t`
before a tick gives the same velocities after the tick and the positions of the
unmoved run moved by `t`; and `calculateGravitationalForce` depends on the two
positions only through `b.position - a.position`. -/
theorem translation_invariant (sqrt : K → K) (bodies : List (CelestialBody K))
    (t : Vector3 K) :
    (tick sqrt (bodies.map (translate t))).map (fun c => c.velocity)
        = (tick sqrt bodies).map (fun c => c.velocity)
      ∧ (tick sqrt (bodies.map (translate t))).map (fun c => c.position)
        = (tick sqrt bodies).map (fun c => c.position + t)
      ∧ ∀ a b a' b' : CelestialBody K, a.mass = a'.mass → b.mass = b'.mass →
          b.position - a.position = b'.position - a'.position →
          calculateGravitationalForce sqrt a b = calculateGravitationalForce sqrt a' b' := by
  have hsum : ∀ b : CelestialBody K,
      Vector3.sumFrom Vector3.zero
          ((bodies.map (translate t)).map (calculateGravitationalForce sqrt (translate t b)))
        = Vector3.sumFrom Vector3.zero (bodies.map (calculateGravitationalForce sqrt b)) := by
    intro b
    rw [List.map_map]
    congr 1
    apply List.map_congr_left
    intro c _
    exact force_of_separation sqrt _ _ _ _ rfl rfl (translate_separation t b c)
  refine ⟨?_, ?_, force_of_separation sqrt⟩
  · rw [tick_eq_map, tick_eq_map, List.map_map, List.map_map, List.map_map]
    apply List.map_congr_left
    intro b _
    simp only [Function.comp_apply, hsum, integrateBody_velocity]
    rfl
  · rw [tick_eq_map, tick_eq_map, List.map_map, List.map_map, List.map_map]
    apply List.map_congr_left
    intro b _
    simp only [Function.comp_apply, hsum, integrateBody_position]
    simp only [translate, Vector3.add_def, Vector3.mul_def, Vector3.div_def]
    ext <;> simp only <;> ring

/-- Witness for C17: the scenario moved by `(5, -2, 1)`, whose pair force is the
one of the unmoved scenario. -/
theorem translation_invariant_witness :
    calculateGravitationalForce Real.sqrt
        (translate ⟨5, -2, 1⟩ (scenarioA : CelestialBody ℝ)) (translate ⟨5, -2, 1⟩ scenarioB)
      = calculateGravitationalForce Real.sqrt (scenarioA : CelestialBody ℝ) scenarioB :=
  (translation_invariant Real.sqrt [(scenarioA : CelestialBody ℝ), scenarioB] ⟨5, -2, 1⟩).2.2
    _ _ _ _ rfl rfl (translate_separation _ _ _)

end Translation

/-! ## Motion in the plane `z = 0` -/

section Planar

/-- Between two bodies of the plane `z = 0` the force has no z-component. -/
theorem force_z_zero (a b : CelestialBody ℝ) (ha : a.position.z = 0)
    (hb : b.position.z = 0) :
    (calculateGravitationalForce Real.sqrt a b).z = 0 := by
  simp only [calculateGravitationalForce, Vector3.sub_def, Vector3.div_def, Vector3.mul_def,
    ha, hb, sub_self, zero_div, zero_mul]

/-- In a list of bodies of the plane `z = 0`, the summed force on a body of the
plane has no z-component. -/
theorem force_sum_z_zero (bodies : List (CelestialBody ℝ))
    (h : ∀ b ∈ bodies, b.position.z = 0 ∧ b.velocity.z = 0) (a : CelestialBody ℝ)
    (ha : a.position.z = 0) :
    (Vector3.sumFrom Vector3.zero
      (bodies.map (calculateGravitationalForce Real.sqrt a))).z = 0 := by
  rw [(sumFrom_components _ _).2.2, List.map_map]
  have hz : List.map ((fun v : Vector3 ℝ => v.z) ∘ calculateGravitationalForce Real.sqrt a)
      bodies = bodies.map (fun _ => (0 : ℝ)) := by
    apply List.map_congr_left
    intro c hc
    exact force_z_zero a c ha (h c hc).1
  rw [hz]
  simp [Vector3.zero]

/-- A tick keeps a list of bodies in the plane `z = 0`. -/
theorem planar_tick (bodies : List (CelestialBody ℝ))
    (h : ∀ b ∈ bodies, b.position.z = 0 ∧ b.velocity.z = 0) :
    ∀ c ∈ tick Real.sqrt bodies, c.position.z = 0 ∧ c.velocity.z = 0 := by
  intro c hc
  rw [tick_eq_map] at hc
  obtain ⟨b, hb, hcb⟩ := List.mem_map.mp hc
  have hF := force_sum_z_zero bodies h b (h b hb).1
  rw [← hcb, integrateBody_position, integrateBody_velocity]
  simp only [Vector3.add_def, Vector3.mul_def, Vector3.div_def, hF, (h b hb).1, (h b hb).2,
    zero_div, zero_mul, add_zero, and_self]

/-- Any number of ticks keeps a list of bodies in the plane `z = 0`. -/
theorem planar_simulate (n : Nat) (bodies : List (CelestialBody ℝ))
    (h : ∀ b ∈ bodies, b.position.z = 0 ∧ b.velocity.z = 0) :
    ∀ c ∈ simulate Real.sqrt n bodies, c.position.z = 0 ∧ c.velocity.z = 0 := by
  induction n generalizing bodies with
  | zero => exact h
  | succ n ih => exact ih (tick Real.sqrt bodies) (planar_tick bodies h)

/-- The initial Sun and Earth lie and move in the plane `z = 0`. -/
theorem initialBodies_planar :
    ∀ b ∈ (initialBodies : List (CelestialBody ℝ)), b.position.z = 0 ∧ b.velocity.z = 0 := by
  intro b hb
  simp only [initialBodies, List.mem_cons, List.mem_singleton, List.not_mem_nil,
    or_false] at hb
  rcases hb with h | h
  · rw [h]; exact ⟨rfl, rfl⟩
  · rw [h]; exact ⟨rfl, rfl⟩

/-- C18 as amended (planar motion, in exact real arithmetic): when every body
has `position.z = 0` and `velocity.z = 0`, all masses are positive and the
positions are pairwise distinct, every net force of the tick has z-component 0
and every body still has `position.z = 0` and `velocity.z = 0` after the tick,
and after `n` ticks when the positions are pairwise distinct before each of
them; this applies to the initial Sun and Earth of `main`. -/
theorem planar_motion (bodies : List (CelestialBody ℝ))
    (h : ∀ b ∈ bodies, b.position.z = 0 ∧ b.velocity.z = 0)
    (_hmass : ∀ b ∈ bodies, 0 < b.mass)
    (_hpos : (bodies.map (fun b => b.position)).Nodup) :
    (∀ F ∈ accumulateForces Real.sqrt bodies, F.z = 0)
      ∧ (∀ c ∈ tick Real.sqrt bodies, c.position.z = 0 ∧ c.velocity.z = 0)
      ∧ (∀ n : Nat,
          (∀ k : Nat, k < n →
            ((simulate Real.sqrt k bodies).map (fun c => c.position)).Nodup) →
          ∀ c ∈ simulate Real.sqrt n bodies, c.position.z = 0 ∧ c.velocity.z = 0)
      ∧ (∀ n : Nat,
          (∀ k : Nat, k < n →
            ((simulate Real.sqrt k (initialBodies : List (CelestialBody ℝ))).map
              (fun c => c.position)).Nodup) →
          ∀ c ∈ simulate Real.sqrt n (initialBodies : List (CelestialBody ℝ)),
            c.position.z = 0 ∧ c.velocity.z = 0) := by
  refine ⟨?_, planar_tick bodies h, fun n _ => planar_simulate n bodies h,
    fun n _ => planar_simulate n initialBodies initialBodies_planar⟩
  intro F hF
  rw [accumulateForces_eq_map] at hF
  obtain ⟨b, hb, hFb⟩ := List.mem_map.mp hF
  rw [← hFb]
  exact force_sum_z_zero bodies h b (h b hb).1

/-- Witness for C18 as amended: two bodies moving in the plane `z = 0`, their
net forces and their state after one tick. -/
theorem planar_motion_witness :
    (∀ F ∈ accumulateForces Real.sqrt
        [pointMass 1 ⟨0, 0, 0⟩ ⟨0, 1, 0⟩, pointMass (2 : ℝ) ⟨3, 4, 0⟩ ⟨1, 0, 0⟩], F.z = 0)
      ∧ ∀ c ∈ simulate Real.sqrt 1
          [pointMass 1 ⟨0, 0, 0⟩ ⟨0, 1, 0⟩, pointMass (2 : ℝ) ⟨3, 4, 0⟩ ⟨1, 0, 0⟩],
          c.position.z = 0 ∧ c.velocity.z = 0 :=
  have h := planar_motion
    [pointMass 1 ⟨0, 0, 0⟩ ⟨0, 1, 0⟩, pointMass (2 : ℝ) ⟨3, 4, 0⟩ ⟨1, 0, 0⟩]
    (by
      intro b hb
      simp only [List.mem_cons, List.mem_singleton, List.not_mem_nil, or_false] at hb
      rcases hb with h | h
      · rw [h]; exact ⟨rfl, rfl⟩
      · rw [h]; exact ⟨rfl, rfl⟩)
    (by
      intro b hb
      simp only [List.mem_cons, List.mem_singleton, List.not_mem_nil, or_false] at hb
      rcases hb with h | h <;> (rw [h]; simp only [pointMass]; norm_num))
    (by
      simp only [pointMass, List.map_cons, List.map_nil, List.nodup_cons,
        List.mem_singleton, List.not_mem_nil, not_false_eq_true, List.nodup_nil, and_true,
        Vector3.mk.injEq]
      norm_num)
  ⟨h.1, h.2.2.1 1 (by
    intro k hk
    have hk0 : k = 0 := by omega
    subst hk0
    simp only [simulate, pointMass, List.map_cons, List.map_nil, List.nodup_cons,
      List.mem_singleton, List.not_mem_nil, not_false_eq_true, List.nodup_nil, and_true,
      Vector3.mk.injEq]
    norm_num)⟩

end Planar

/-! ## Coincident bodies -/

section Coincident

/-- The guarded force has no value for two bodies at the same position: the
distance, a divisor, is zero. -/
theorem forceChecked_same_position (a b : CelestialBody ℝ) (h : a.position = b.position) :
    calculateGravitationalForceChecked Real.sqrt a b = none := by
  simp only [calculateGravitationalForceChecked, checkedDiv, h, Vector3.sub_def, sub_self,
    mul_zero, add_zero, Real.sqrt_zero, if_true]
  rfl

/-- Counterexample to C3: for two bodies at the same position the force has no
value in exact arithmetic (the guarded force fails on the zero distance), and on
doubles every component is NaN, which is `==` to nothing, its own negation
included. -/
theorem force_undefined_at_coincidence :
    calculateGravitationalForceChecked Real.sqrt
        (pointMass (1 : ℝ) ⟨0, 0, 0⟩ ⟨0, 0, 0⟩) (pointMass (1 : ℝ) ⟨0, 0, 0⟩ ⟨0, 0, 0⟩) = none
      ∧ calculateGravitationalForce Double.sqrt (restingAt 1 0) (restingAt 1 0)
        = ⟨Double.nan, Double.nan, Double.nan⟩
      ∧ Double.ieeeEq (calculateGravitationalForce Double.sqrt (restingAt 1 0) (restingAt 1 0)).x
          (Double.neg
            (calculateGravitationalForce Double.sqrt (restingAt 1 0) (restingAt 1 0)).x)
        = false :=
  ⟨forceChecked_same_position _ _ rfl, by decide!, by decide!⟩

/-- C3 as amended (Newton's third law, in exact real arithmetic): for every pair
of bodies at distinct positions both forces are defined (no divisor is zero) and
each component of `calculateGravitationalForce a b` is the negation of the same
component of `calculateGravitationalForce b a`. -/
theorem force_antisymmetric (a b : CelestialBody ℝ) (hne : a.position ≠ b.position) :
    calculateGravitationalForceChecked Real.sqrt a b
        = some (calculateGravitationalForce Real.sqrt a b)
      ∧ calculateGravitationalForceChecked Real.sqrt b a
        = some (calculateGravitationalForce Real.sqrt b a)
      ∧ (calculateGravitationalForce Real.sqrt a b).x
        = -(calculateGravitationalForce Real.sqrt b a).x
      ∧ (calculateGravitationalForce Real.sqrt a b).y
        = -(calculateGravitationalForce Real.sqrt b a).y
      ∧ (calculateGravitationalForce Real.sqrt a b).z
        = -(calculateGravitationalForce Real.sqrt b a).z := by
  have h := force_add_swap a b
  simp only [Vector3.add_def, Vector3.zero, Vector3.mk.injEq] at h
  obtain ⟨hx, hy, hz⟩ := h
  exact ⟨forceChecked_eq_some a b hne, forceChecked_eq_some b a (Ne.symm hne),
    by linarith, by linarith, by linarith⟩

/-- Witness for C3 as amended: unit masses at the origin and at `(3, 4, 0)`. -/
theorem force_antisymmetric_witness :
    (calculateGravitationalForce Real.sqrt
        (pointMass (1 : ℝ) ⟨0, 0, 0⟩ ⟨0, 0, 0⟩) (pointMass 1 ⟨3, 4, 0⟩ ⟨0, 0, 0⟩)).x
      = -(calculateGravitationalForce Real.sqrt
        (pointMass (1 : ℝ) ⟨3, 4, 0⟩ ⟨0, 0, 0⟩) (pointMass 1 ⟨0, 0, 0⟩ ⟨0, 0, 0⟩)).x :=
  (force_antisymmetric (pointMass 1 ⟨0, 0, 0⟩ ⟨0, 0, 0⟩) (pointMass 1 ⟨3, 4, 0⟩ ⟨0, 0, 0⟩)
    (by
      intro h
      have := congrArg Vector3.x h
      simp only [pointMass] at this
      norm_num at this)).2.2.1

end Coincident

/-! ## The program on doubles -/

section Doubles

/-- Known values of binary64 arithmetic, computed by the model: rounding of a
sum, absorption of a small summand, division by zero, square roots, underflow
and overflow of a product. -/
theorem double_arithmetic_samples :
    (0.1 : Double) + 0.2 = 0.30000000000000004
      ∧ (0.1 : Double) + 0.2 ≠ 0.3
      ∧ (1e16 : Double) + 1 = 1e16
      ∧ (1 : Double) / 0 = Double.inf false
      ∧ (0 : Double) / 0 = Double.nan
      ∧ Double.sqrt 4 = 2
      ∧ Double.sqrt 2 * Double.sqrt 2 = 2.0000000000000004
      ∧ (1e-200 : Double) * 1e-200 = 0
      ∧ (1e200 : Double) * 1e200 = Double.inf false
      ∧ (6.67430e-11 : Double) = Double.finite false 5163989502626508 988 :=
  ⟨by decide!, by decide!, by decide!, by decide!, by decide!, by decide!, by decide!,
    by decide!, by decide!, by decide!⟩

/-- Counterexample to C2: two bodies of mass 1 at `(0,0,0)` and `(1e-200,0,0)`.
The masses are positive and the positions differ, but the square of the
separation underflows to 0, the distance is 0 and the returned vector is
`(inf, NaN, NaN)`, which is `==` to no multiple of the separation. -/
theorem doubles_force_not_along_separation :
    (0 : Double) < (restingAt 1 0).mass ∧ (0 : Double) < (restingAt 1 1e-200).mass
      ∧ Vector3.ieeeEq (restingAt 1 0).position (restingAt 1 1e-200).position = false
      ∧ Vector3.norm Double.sqrt ((restingAt 1 1e-200).position - (restingAt 1 0).position) = 0
      ∧ calculateGravitationalForce Double.sqrt (restingAt 1 0) (restingAt 1 1e-200)
        = ⟨Double.inf false, Double.nan, Double.nan⟩
      ∧ ∀ k : Double,
          Vector3.ieeeEq
            (calculateGravitationalForce Double.sqrt (restingAt 1 0) (restingAt 1 1e-200))
            (((restingAt 1 1e-200).position - (restingAt 1 0).position) * k) = false := by
  have hF : calculateGravitationalForce Double.sqrt (restingAt 1 0) (restingAt 1 1e-200)
      = ⟨Double.inf false, Double.nan, Double.nan⟩ := by decide!
  refine ⟨by decide!, by decide!, by decide!, by decide!, hF, ?_⟩
  intro k
  rw [hF]
  simp only [Vector3.ieeeEq, Double.ieeeEq, Bool.and_false, Bool.false_and]

/-- Counterexample to C10: two bodies of mass 1 at rest, `1e11` apart.  The
second body has a non-zero mass and a non-zero net force (its x-component is
negative), yet after the tick its position is `(1e11, 0, 0)` in the program's
order and in the reversed order alike: the increment is lost in rounding. -/
theorem update_order_hidden_on_doubles :
    [restingAt 1 0, restingAt 1 1e11][1]?.map (fun b => Double.ieeeEq b.mass 0) = some false
      ∧ (accumulateForces Double.sqrt [restingAt 1 0, restingAt 1 1e11])[1]?.map
          (fun F => (decide (F.x < 0), Vector3.ieeeEq F ⟨0, 0, 0⟩)) = some (true, false)
      ∧ (tick Double.sqrt [restingAt 1 0, restingAt 1 1e11])[1]?.map (fun c => c.position)
        = some ⟨1e11, 0, 0⟩
      ∧ (tickReversed Double.sqrt [restingAt 1 0, restingAt 1 1e11])[1]?.map
          (fun c => c.position) = some ⟨1e11, 0, 0⟩ :=
  ⟨by decide!, by decide!, by decide!, by decide!⟩

/-- Counterexample to C14: two bodies of positive mass at the distinct positions
`(0,0,0)` and `(1e-200,0,0)`.  The distance computed on doubles is 0, so lines
43 and 44 divide by zero and the guarded tick fails. -/
theorem division_by_zero_on_doubles :
    ([restingAt 1 0, restingAt 1 1e-200].map (fun b => b.position)).Nodup
      ∧ (∀ b ∈ [restingAt 1 0, restingAt 1 1e-200], (0 : Double) < b.mass)
      ∧ Vector3.ieeeEq (restingAt 1 0).position (restingAt 1 1e-200).position = false
      ∧ Vector3.norm Double.sqrt ((restingAt 1 1e-200).position - (restingAt 1 0).position) = 0
      ∧ calculateGravitationalForceChecked Double.sqrt (restingAt 1 0) (restingAt 1 1e-200)
        = none
      ∧ tickChecked Double.sqrt [restingAt 1 0, restingAt 1 1e-200] = none :=
  ⟨by decide!, by decide!, by decide!, by decide!, by decide!, by decide!⟩

/-- Counterexample to C17: two bodies of mass 1 at rest at `x = 0` and `x = 3`,
moved by `(1e16, 0, 0)`.  On doubles `3 + 1e16` is `1e16 + 4`, the separation
becomes 4 instead of 3 and the velocities after the tick differ from those of
the unmoved run. -/
theorem translation_changes_doubles :
    ((3 : Double) + 1e16) - (0 + 1e16) = 4
      ∧ (tick Double.sqrt
            ([restingAt 1 0, restingAt 1 3].map (translate ⟨1e16, 0, 0⟩))).map
          (fun c => c.velocity)
        ≠ (tick Double.sqrt [restingAt 1 0, restingAt 1 3]).map (fun c => c.velocity)
      ∧ ((tick Double.sqrt
            ([restingAt 1 0, restingAt 1 3].map (translate ⟨1e16, 0, 0⟩)))[0]?.bind
          (fun c => (tick Double.sqrt [restingAt 1 0, restingAt 1 3])[0]?.map
            (fun d => Vector3.ieeeEq c.velocity d.velocity))) = some false :=
  ⟨by decide!, by decide!, by decide!⟩

/-- Counterexample to C18: bodies with `position.z = 0` and `velocity.z = 0`
whose net forces, positions and velocities get a NaN z-component in one tick:
two bodies at the same point (the distance is 0), two bodies of mass `1e200`
one unit apart (the force magnitude overflows), and a single body of mass 0. -/
theorem doubles_leave_plane :
    (∀ b ∈ [restingAt 1 0, restingAt 1 0], b.position.z = 0 ∧ b.velocity.z = 0)
      ∧ (accumulateForces Double.sqrt [restingAt 1 0, restingAt 1 0]).map (fun F => F.z)
        = [Double.nan, Double.nan]
      ∧ (tick Double.sqrt [restingAt 1 0, restingAt 1 0]).map
          (fun c => (c.position.z, c.velocity.z))
        = [(Double.nan, Double.nan), (Double.nan, Double.nan)]
      ∧ (∀ b ∈ [restingAt 1e200 0, restingAt 1e200 1], b.position.z = 0 ∧ b.velocity.z = 0)
      ∧ (accumulateForces Double.sqrt [restingAt 1e200 0, restingAt 1e200 1]).map
          (fun F => F.z) = [Double.nan, Double.nan]
      ∧ (∀ b ∈ [restingAt 0 0], b.position.z = 0 ∧ b.velocity.z = 0)
      ∧ (tick Double.sqrt [restingAt 0 0]).map (fun c => (c.position.z, c.velocity.z))
        = [(Double.nan, Double.nan)] :=
  ⟨by decide!, by decide!, by decide!, by decide!, by decide!, by decide!, by decide!⟩

end Doubles

end SolarSim
